import Mathlib

/-!
Verification development for the multi-tenant EMR backend Lambda
(`lambda_code/index.js`).  The handler is embedded shallowly: JavaScript
values flowing through the handler are modelled by `JVal`, the outcome of
every database round trip is an input (the `Ctx` oracle), and the handler
returns both the HTTP response and the ordered trace of connection events
(borrow, SQL statement, release) it performed.  SQL text is carried
verbatim from the source, with the template literals' internal whitespace
normalized to single spaces.
-/

/-- Model of a JavaScript/JSON value as it flows through the handler. -/
inductive JVal where
  | null
  | bool (b : Bool)
  | num (n : Int)
  | str (s : String)
  | arr (xs : List JVal)
  | obj (fs : List (String × JVal))

/-- JavaScript truthiness of a `JVal` (objects and arrays are truthy,
`null`, `false`, `0` and the empty string are falsy). -/
def JVal.truthy : JVal → Bool
  | JVal.null => false
  | JVal.bool b => b
  | JVal.num n => n != 0
  | JVal.str s => s != ""
  | JVal.arr _ => true
  | JVal.obj _ => true

/-- Property access `v[k]` for string keys: defined on objects, `undefined`
(here `none`) on every other value.  Access on `null` is treated separately
at the call sites that would throw a TypeError in JavaScript. -/
def getField : JVal → String → Option JVal
  | JVal.obj fs, k => List.lookup k fs
  | _, _ => none

mutual
/-- `JSON.stringify` on the modelled values (string escaping elided; no
claim depends on the serialized text beyond it being a string). -/
def JVal.stringify : JVal → String
  | JVal.null => "null"
  | JVal.bool b => if b then "true" else "false"
  | JVal.num n => toString n
  | JVal.str s => "\"" ++ s ++ "\""
  | JVal.arr xs => "[" ++ stringifyList xs ++ "]"
  | JVal.obj fs => "\x7b" ++ stringifyFields fs ++ "\x7d"

def stringifyList : List JVal → String
  | [] => ""
  | [x] => JVal.stringify x
  | x :: y :: r => JVal.stringify x ++ "," ++ stringifyList (y :: r)

def stringifyFields : List (String × JVal) → String
  | [] => ""
  | [f] => "\"" ++ f.1 ++ "\":" ++ JVal.stringify f.2
  | f :: g :: r => "\"" ++ f.1 ++ "\":" ++ JVal.stringify f.2 ++ "," ++ stringifyFields (g :: r)
end

mutual
/-- JavaScript `String(v)` coercion, used only inside diagnostic messages. -/
def jsToString : JVal → String
  | JVal.null => "null"
  | JVal.bool b => if b then "true" else "false"
  | JVal.num n => toString n
  | JVal.str s => s
  | JVal.arr xs => jsToStringList xs
  | JVal.obj _ => "[object Object]"

def jsToStringList : List JVal → String
  | [] => ""
  | [x] => jsToString x
  | x :: y :: r => jsToString x ++ "," ++ jsToStringList (y :: r)
end

/-- `Object.keys(v).length`, with `none` modelling the TypeError thrown by
`Object.keys(null)`. -/
def jsKeysLen : JVal → Option Nat
  | JVal.null => none
  | JVal.obj fs => some fs.length
  | JVal.arr xs => some xs.length
  | JVal.str s => some s.length
  | _ => some 0

/-- `typeof v === 'object' && v !== null` (arrays included). -/
def jsIsObjectNotNull : JVal → Bool
  | JVal.obj _ => true
  | JVal.arr _ => true
  | _ => false

/-- List-level string prefix test (chars of `p` head `l`). -/
def listStarts : List Char → List Char → Bool
  | [], _ => true
  | _ :: _, [] => false
  | a :: as, b :: bs => a == b && listStarts as bs

/-- List-level substring test. -/
def listIsSub (p : List Char) : List Char → Bool
  | [] => listStarts p []
  | b :: bs => listStarts p (b :: bs) || listIsSub p bs

/-- `s.startsWith p` on the character lists of the two strings. -/
def strStarts (p s : String) : Bool := listStarts p.data s.data

/-- `s.includes p` on the character lists of the two strings. -/
def strHas (p s : String) : Bool := listIsSub p.data s.data

/-- A database error as surfaced by the `pg` driver: SQLSTATE code,
message, `detail`, and violated-constraint name (each possibly absent). -/
structure QErr where
  code : Option String
  msg : String
  detail : Option String
  constraintName : Option String

/-- Outcome of one SQL statement: row count plus returned rows, or an error. -/
inductive QRes where
  | ok (rowCount : Nat) (rows : List JVal)
  | err (e : QErr)

/-- Whether a query outcome is a success. -/
def qOk : QRes → Bool
  | QRes.ok _ _ => true
  | QRes.err _ => false

/-- One observable database-connection event of a handler run. -/
inductive Ev where
  | connect (ok : Bool)
  | query (sql : String) (params : List JVal) (ok : Bool)
  | release

/-- The request body as the handler sees it: `absent` models a falsy
`event.body` (so `JSON.parse(event.body || '{}')` yields `{}`),
`malformed` a body on which `JSON.parse` throws a SyntaxError, and
`val v` a body parsing to the JSON value `v`. -/
inductive BodyIn where
  | absent
  | malformed
  | val (v : JVal)

/-- The fields of the API-Gateway event that the handler reads. -/
structure Event where
  httpMethod : String
  path : String
  body : BodyIn
  clinicId : Option JVal
  pathId : Option String
  qpPatientId : Option String

/-- Per-request environment: whether the process-level pool must first be
initialized (cold start) and the outcome of each database round trip the
request may perform.  Every database outcome is an input, since the
database itself is external to the embedded code. -/
structure Ctx where
  coldStart : Bool
  initOk : Bool
  initErrMsg : String
  connOk : Bool
  connErr : QErr
  setPathRes : QRes
  mainRes : QRes
  corsOrigin : Option String
  now : String

/-- Body of an HTTP response: a JSON-serialized value, or a raw string
(the OPTIONS preflight returns the raw empty string). -/
inductive RBody where
  | json (v : JVal)
  | raw (s : String)

/-- An HTTP response as returned by the Lambda handler. -/
structure Resp where
  status : Nat
  headers : List (String × String)
  body : RBody

/-- The CORS header object built at the top of the handler
(`const headers = {...}`). -/
def baseHeaders (corsOrigin : Option String) : List (String × String) :=
  [("Access-Control-Allow-Origin", corsOrigin.getD "*"),
   ("Access-Control-Allow-Headers", "Content-Type, Authorization"),
   ("Access-Control-Allow-Methods", "OPTIONS,POST,GET,PUT,DELETE"),
   ("Content-Type", "application/json")]

/-- Headers of the OPTIONS preflight short-circuit response. -/
def optionsHeaders (corsOrigin : Option String) : List (String × String) :=
  [("Access-Control-Allow-Origin", corsOrigin.getD "*"),
   ("Access-Control-Allow-Methods", "OPTIONS,POST,GET,PUT,DELETE"),
   ("Access-Control-Allow-Headers", "Content-Type, Authorization"),
   ("Access-Control-Max-Age", "86400")]

/-- JavaScript object-spread update: keys of `ov` override `base`,
new keys are appended in order. -/
def updateAssoc (l : List (String × String)) (k v : String) : List (String × String) :=
  if l.any (fun p => p.1 == k) then
    l.map (fun p => if p.1 == k then (k, v) else p)
  else l ++ [(k, v)]

/-- Fold object spread over an override list. -/
def mergeHeaders : List (String × String) → List (String × String) → List (String × String)
  | base, [] => base
  | base, (k, v) :: rest => mergeHeaders (updateAssoc base k v) rest

/-- The `finalHeaders` object built just before the common return
(`{'Access-Control-Allow-Origin': '*', ..., ...headers}`). -/
def finalHeaders (corsOrigin : Option String) : List (String × String) :=
  mergeHeaders
    [("Access-Control-Allow-Origin", "*"),
     ("Access-Control-Allow-Headers",
       "Content-Type,X-Amz-Date,Authorization,X-Api-Key,X-Amz-Security-Token"),
     ("Access-Control-Allow-Methods", "OPTIONS,POST,GET,PUT,DELETE")]
    (baseHeaders corsOrigin)

/-- The allow-list check `isValidSchemaName` of the source: the tenant
identifier must match `^[a-zA-Z_][a-zA-Z0-9_]*$` (and the empty string is
rejected up front by the falsiness guard). -/
def isValidSchemaName (schemaName : String) : Bool :=
  match schemaName.data with
  | [] => false
  | c :: rest =>
    (c.isAlpha || c == '_') && rest.all (fun d => d.isAlpha || d.isDigit || d == '_')

/-- `pg`'s `client.escapeIdentifier`: double internal double quotes and
wrap the identifier in double quotes. -/
def escapeIdentifier (s : String) : String :=
  "\"" ++ String.replace s "\"" "\"\"" ++ "\""

/-- The single scoping directive `setTenantSearchPath` issues: it scopes
the connection to the tenant's schema followed by the shared `public`
schema. -/
def mkSetQuery (tenantSchema : String) : String :=
  "SET search_path TO " ++ escapeIdentifier tenantSchema ++ ", public;"

/-- The error thrown on an identifier failing the allow-list
(`new Error("Invalid tenant identifier.")`, no SQLSTATE code). -/
def invalidTenantErr : QErr := ⟨none, "Invalid tenant identifier.", none, none⟩

/-- `setTenantSearchPath(client, tenantSchema)`: validates the identifier,
and on success issues exactly the one `SET search_path` directive, whose
failure is rethrown.  Returns the thrown-or-ok outcome together with the
list of SQL statements it issued on the connection. -/
def setTenantSearchPath (tenantSchema : String) (res : QRes) :
    Except QErr Unit × List String :=
  if isValidSchemaName tenantSchema = false then
    (Except.error invalidTenantErr, [])
  else
    match res with
    | QRes.err e => (Except.error e, [mkSetQuery tenantSchema])
    | QRes.ok _ _ => (Except.ok (), [mkSetQuery tenantSchema])

/-- JavaScript `String.prototype.trim`: strip leading and trailing
whitespace (modelled at the character-list level). -/
def jsTrim (s : String) : String :=
  String.mk (((s.data.dropWhile Char.isWhitespace).reverse.dropWhile Char.isWhitespace).reverse)

/-- Tenant extraction from the Cognito claims: the `custom:clinic_id`
claim must be present, truthy, a string, and nonempty after trimming. -/
def tenantFromClaims : Option JVal → Option String
  | none => none
  | some v =>
    if v.truthy then
      match v with
      | JVal.str s => if 0 < (jsTrim s).length then some (jsTrim s) else none
      | _ => none
    else none

/-- Response body `{message: m}`. -/
def msgObj (m : String) : JVal := JVal.obj [("message", JVal.str m)]

/-- Response body `{message: m, error: e.message}`. -/
def withErrMsg (m : String) (e : QErr) : JVal :=
  JVal.obj [("message", JVal.str m), ("error", JVal.str e.msg)]

/-- Response body `{message: m, error: e.detail}` — the `error` key is
dropped when `detail` is absent, as `JSON.stringify` drops `undefined`. -/
def withErrDetail (m : String) (e : QErr) : JVal :=
  JVal.obj (("message", JVal.str m) ::
    (match e.detail with
     | some d => [("error", JVal.str d)]
     | none => []))

/-- Field value used verbatim (the required patient fields). -/
def reqVal (v : JVal) (k : String) : JVal := (getField v k).getD JVal.null

/-- `body.k || null`. -/
def orNullF (v : JVal) (k : String) : JVal :=
  match getField v k with
  | some x => if x.truthy then x else JVal.null
  | none => JVal.null

/-- `body.k || false`. -/
def orFalseF (v : JVal) (k : String) : JVal :=
  match getField v k with
  | some x => if x.truthy then x else JVal.bool false
  | none => JVal.bool false

/-- `body.k || {}`. -/
def orEmptyObj (v : JVal) (k : String) : JVal :=
  match getField v k with
  | some x => if x.truthy then x else JVal.obj []
  | none => JVal.obj []

/-- Whether `body.k` is truthy. -/
def truthyField (v : JVal) (k : String) : Bool :=
  match getField v k with
  | some x => x.truthy
  | none => false

/-- Whether a parsed body is the JSON value `null` (property access on it
throws a TypeError). -/
def isNullJV : JVal → Bool
  | JVal.null => true
  | _ => false

/-- Whether an optional string (path/query parameter) is falsy in JS. -/
def optFalsy : Option String → Bool
  | none => true
  | some s => s == ""

/-- TypeError message for property access on `null`
(`!body.first_name` with `body = null`). -/
def nullReadErr : QErr :=
  ⟨none, "Cannot read properties of null (reading 'first_name')", none, none⟩

/-- TypeError message for `Object.keys(null)`. -/
def nullKeysErr : QErr :=
  ⟨none, "Cannot convert undefined or null to object", none, none⟩

/-- SyntaxError thrown by `JSON.parse` on a malformed body (its message
text is engine-specific; only its lack of a SQLSTATE code matters). -/
def jsonSyntaxErr : QErr := ⟨none, "Unexpected token in JSON", none, none⟩

/-- Error thrown when an INSERT succeeds but returns no row. -/
def noRowAfterInsertErr (what : String) : QErr :=
  ⟨none, "Failed to retrieve created " ++ what ++ " details after insert.", none, none⟩

/-- GET /patients statement. -/
def patientsSelectSQL : String :=
  "SELECT patient_id, first_name, last_name, date_of_birth, created_at, updated_at FROM patients ORDER BY last_name, first_name;"

/-- POST /patients statement. -/
def patientsInsertSQL : String :=
  "INSERT INTO patients (first_name, last_name, date_of_birth, middle_initial, preferred_name, gender, phone_number, email, address_line1, address_line2, city, state_province, postal_code, country, is_medicare_eligible, custom_data) VALUES ($1, $2, $3, $4, $5, $6, $7, $8, $9, $10, $11, $12, $13, $14, $15, $16::jsonb) RETURNING patient_id, first_name, last_name, date_of_birth, created_at;"

/-- DELETE /patients/{id} statement. -/
def patientsDeleteSQL : String := "DELETE FROM patients WHERE patient_id = $1;"

/-- The waiting-queue listing statement shared by GET /waiting-queue and
GET /queue: a join against patients ordered by enqueue timestamp. -/
def waitingQueueSQL : String :=
  "SELECT wq.queue_entry_id, wq.patient_id, p.first_name, p.last_name, wq.queue_timestamp, wq.status, wq.notes FROM waiting_queue wq JOIN patients p ON wq.patient_id = p.patient_id ORDER BY wq.queue_timestamp ASC;"

/-- POST /soapnotes statement. -/
def notesInsertSQL : String :=
  "INSERT INTO notes (patient_id, doctor_id, subjective_note, objective_note, assessment_note, plan_note, dx_codes, billing_codes, note_type, signed_status) VALUES ($1, $2, $3, $4, $5, $6, $7::jsonb, $8::jsonb, $9) RETURNING note_id, created_at, updated_at, signed_status;"

/-- GET /soapnotes base statement (filters appended dynamically). -/
def notesSelectBase : String :=
  "SELECT note_id, patient_id, doctor_id, note_type, created_at, updated_at, signed_status FROM notes"

/-- GET /soapnotes/{id} statement. -/
def noteByIdSQL : String := "SELECT * FROM notes WHERE note_id = $1;"

/-- The `values` array of the POST /patients INSERT: required fields
verbatim, eleven optionals defaulted to `null`, `is_medicare_eligible`
defaulted to `false`, and `custom_data` stringified with `{}` default. -/
def patientInsertValues (v : JVal) : List JVal :=
  [reqVal v "first_name", reqVal v "last_name", reqVal v "date_of_birth",
   orNullF v "middle_initial", orNullF v "preferred_name", orNullF v "gender",
   orNullF v "phone_number", orNullF v "email", orNullF v "address_line1",
   orNullF v "address_line2", orNullF v "city", orNullF v "state_province",
   orNullF v "postal_code", orNullF v "country",
   orFalseF v "is_medicare_eligible",
   JVal.str (JVal.stringify (orEmptyObj v "custom_data"))]

/-- Sanitization of `dx_codes` / `billing_codes`: structured JSON only for
a nonempty array, otherwise `null`. -/
def codesVal : Option JVal → JVal
  | some (JVal.arr (x :: xs)) => JVal.str (JVal.stringify (JVal.arr (x :: xs)))
  | _ => JVal.null

/-- The `values` array of the POST /soapnotes INSERT. -/
def noteInsertValues (v : JVal) : List JVal :=
  [reqVal v "patient_id", orNullF v "doctor_id",
   orNullF v "subjective", orNullF v "objective",
   orNullF v "assessment", orNullF v "plan",
   codesVal (getField v "dx_codes"), codesVal (getField v "billing_codes"),
   JVal.str "SOAP"]

/-- Outcome of connection borrow plus tenant-context application. -/
inductive Setup where
  | connFail (e : QErr)
  | setupErr (e : QErr)
  | ready

/-- Borrow a connection and apply `setTenantSearchPath`, recording the
events (the `finally` release is appended by the caller per the source's
structure). -/
def runCtx (c : Ctx) (ts : String) : Setup × List Ev :=
  if c.connOk = false then
    (Setup.connFail c.connErr, [Ev.connect false])
  else
    match setTenantSearchPath ts c.setPathRes with
    | (Except.error e, qs) =>
      (Setup.setupErr e, Ev.connect true :: qs.map (fun q => Ev.query q [] false))
    | (Except.ok _, qs) =>
      (Setup.ready, Ev.connect true :: qs.map (fun q => Ev.query q [] true))

/-- Common shape of the handlers that run one main statement after the
tenant context: thrown errors are classified by `onErr`, a successful
result by `onOk`, and the connection is released in the `finally`. -/
def runQuery (c : Ctx) (ts : String) (sql : String) (params : List JVal)
    (onOk : Nat → List JVal → Nat × JVal) (onErr : QErr → Nat × JVal) :
    Nat × JVal × List Ev :=
  match runCtx c ts with
  | (Setup.connFail e, evs) => ((onErr e).1, (onErr e).2, evs)
  | (Setup.setupErr e, evs) => ((onErr e).1, (onErr e).2, evs ++ [Ev.release])
  | (Setup.ready, evs) =>
    match c.mainRes with
    | QRes.err e =>
      ((onErr e).1, (onErr e).2, evs ++ [Ev.query sql params false, Ev.release])
    | QRes.ok n rows =>
      ((onOk n rows).1, (onOk n rows).2, evs ++ [Ev.query sql params true, Ev.release])

/-- Error classification of the GET /patients catch block. -/
def classifyGetPatients (ts : String) (e : QErr) : Nat × JVal :=
  if e.code = some "3F000" then
    (404, withErrMsg ("Tenant schema '" ++ ts ++ "' not found.") e)
  else
    (500, withErrMsg "Internal Server Error: Could not fetch patients." e)

/-- GET /patients. -/
def getPatientsRoute (c : Ctx) (ts : String) : Nat × JVal × List Ev :=
  runQuery c ts patientsSelectSQL []
    (fun _ rows => (200, JVal.arr rows))
    (classifyGetPatients ts)

/-- Error classification of the POST /patients catch block. -/
def classifyPostPatients (ts : String) (e : QErr) : Nat × JVal :=
  if e.code = some "23505" then
    (409, withErrDetail "Conflict: Patient data violates a unique constraint." e)
  else if e.code = some "22P02" then
    (400, withErrMsg "Bad Request: Invalid data format provided." e)
  else if e.code = some "3F000" then
    (404, withErrMsg ("Tenant schema '" ++ ts ++ "' not found.") e)
  else
    (500, withErrMsg "Internal Server Error: Could not create patient." e)

/-- POST /patients after body parsing: required field validation before
any borrow, then the parameterized INSERT.  A `null` body makes the
validation's property access throw, which lands in the database catch
block as an uncoded error. -/
def postPatientsBody (v : JVal) (c : Ctx) (ts : String) : Nat × JVal × List Ev :=
  if isNullJV v then
    ((classifyPostPatients ts nullReadErr).1, (classifyPostPatients ts nullReadErr).2, [])
  else
    if !truthyField v "first_name" || !truthyField v "last_name" ||
        !truthyField v "date_of_birth" then
      (400, msgObj "Bad Request: Missing required patient fields (first_name, last_name, date_of_birth).", [])
    else
      runQuery c ts patientsInsertSQL (patientInsertValues v)
        (fun _ rows =>
          match rows with
          | r :: _ =>
            (201, JVal.obj [("message", JVal.str "Patient created successfully."),
                            ("patientId", (getField r "patient_id").getD JVal.null)])
          | [] => classifyPostPatients ts (noRowAfterInsertErr "patient"))
        (classifyPostPatients ts)

/-- POST /patients: JSON parsing (dedicated SyntaxError catch), then the
body-level handling. -/
def postPatientsRoute (ev : Event) (c : Ctx) (ts : String) : Nat × JVal × List Ev :=
  match ev.body with
  | BodyIn.malformed =>
    (400, msgObj "Bad Request: Invalid JSON format in request body.", [])
  | BodyIn.absent => postPatientsBody (JVal.obj []) c ts
  | BodyIn.val v => postPatientsBody v c ts

/-- Error classification of the PUT /patients/{id} catch block (it also
receives the JSON SyntaxError and the `Object.keys(null)` TypeError, both
uncoded, hence mapped to 500). -/
def classifyPutPatients (ts pid : String) (e : QErr) : Nat × JVal :=
  if e.code = some "23505" then
    (409, withErrDetail "Conflict: Update violates a unique constraint." e)
  else if e.code = some "22P02" then
    (400, withErrMsg "Bad Request: Invalid data format provided for update." e)
  else if e.code = some "3F000" then
    (404, withErrMsg ("Tenant schema '" ++ ts ++ "' not found.") e)
  else
    (500, withErrMsg ("Internal Server Error: Could not update patient " ++ pid ++ ".") e)

/-- A recognized field present in the update payload, used verbatim. -/
def pickPlain (v : JVal) (k : String) : List (String × JVal) :=
  match getField v k with
  | some x => [(k, x)]
  | none => []

/-- A recognized JSONB field present in the update payload, stringified
with `{}` default (`JSON.stringify(body.k || {})`). -/
def pickJson (v : JVal) (k : String) : List (String × JVal) :=
  match getField v k with
  | some x => [(k, JVal.str (JVal.stringify (if x.truthy then x else JVal.obj [])))]
  | none => []

/-- The recognized PUT /patients/{id} fields, in source order. -/
def putPatientFields (v : JVal) : List (String × JVal) :=
  pickPlain v "first_name" ++ pickPlain v "last_name" ++
  pickPlain v "date_of_birth" ++ pickPlain v "gender" ++
  pickJson v "contact_info" ++ pickJson v "address" ++
  pickJson v "insurance_info" ++ pickJson v "medical_history"

/-- `fields.join(', ')` with `$i` placeholders plus the automatic
`updated_at` column. -/
def setClause (names : List String) : String :=
  String.intercalate ", "
    ((names.enum.map (fun p => p.2 ++ " = $" ++ toString (p.1 + 1))) ++
     ["updated_at = CURRENT_TIMESTAMP"])

/-- The dynamic PUT /patients/{id} statement. -/
def putPatientsSQL (names : List String) : String :=
  "UPDATE patients SET " ++ setClause names ++ " WHERE patient_id = $" ++
    toString (names.length + 1) ++
    " RETURNING patient_id, first_name, last_name, date_of_birth, updated_at;"

/-- PUT /patients/{id} after body parsing. -/
def putPatientBody (v : JVal) (c : Ctx) (ts pid : String) : Nat × JVal × List Ev :=
  match jsKeysLen v with
  | none =>
    ((classifyPutPatients ts pid nullKeysErr).1,
     (classifyPutPatients ts pid nullKeysErr).2, [])
  | some 0 => (400, msgObj "Bad Request: No fields provided for update.", [])
  | some (_ + 1) =>
    match runCtx c ts with
    | (Setup.connFail e, evs) =>
      ((classifyPutPatients ts pid e).1, (classifyPutPatients ts pid e).2, evs)
    | (Setup.setupErr e, evs) =>
      ((classifyPutPatients ts pid e).1, (classifyPutPatients ts pid e).2,
       evs ++ [Ev.release])
    | (Setup.ready, evs) =>
      let fields := putPatientFields v
      match fields with
      | [] =>
        (400, msgObj "Bad Request: No updatable fields provided.", evs ++ [Ev.release])
      | _ :: _ =>
        let sql := putPatientsSQL (fields.map Prod.fst)
        let vals := fields.map Prod.snd ++ [JVal.str pid]
        match c.mainRes with
        | QRes.err e =>
          ((classifyPutPatients ts pid e).1, (classifyPutPatients ts pid e).2,
           evs ++ [Ev.query sql vals false, Ev.release])
        | QRes.ok n rows =>
          if 0 < n then
            (200, JVal.obj [("message", JVal.str "Patient updated successfully."),
                            ("patient", rows.headD JVal.null)],
             evs ++ [Ev.query sql vals true, Ev.release])
          else
            (404, msgObj ("Patient with ID " ++ pid ++ " not found."),
             evs ++ [Ev.query sql vals true, Ev.release])

/-- PUT /patients/{id}: the path parameter guard and the JSON parse (whose
SyntaxError is caught by the same catch block as database errors). -/
def putPatientRoute (ev : Event) (c : Ctx) (ts : String) : Nat × JVal × List Ev :=
  if optFalsy ev.pathId then
    (400, msgObj "Bad Request: Missing patient ID in path.", [])
  else
    let pid := ev.pathId.getD ""
    match ev.body with
    | BodyIn.malformed =>
      ((classifyPutPatients ts pid jsonSyntaxErr).1,
       (classifyPutPatients ts pid jsonSyntaxErr).2, [])
    | BodyIn.absent => putPatientBody (JVal.obj []) c ts pid
    | BodyIn.val v => putPatientBody v c ts pid

/-- Error classification of the DELETE /patients/{id} catch block. -/
def classifyDeletePatients (ts pid : String) (e : QErr) : Nat × JVal :=
  if e.code = some "23503" then
    (409, withErrDetail ("Conflict: Cannot delete patient " ++ pid ++
      " as they have related records (e.g., SOAP notes).") e)
  else if e.code = some "3F000" then
    (404, withErrMsg ("Tenant schema '" ++ ts ++ "' not found.") e)
  else
    (500, withErrMsg ("Internal Server Error: Could not delete patient " ++ pid ++ ".") e)

/-- DELETE /patients/{id}. -/
def deletePatientRoute (ev : Event) (c : Ctx) (ts : String) : Nat × JVal × List Ev :=
  if optFalsy ev.pathId then
    (400, msgObj "Bad Request: Missing patient ID in path.", [])
  else
    let pid := ev.pathId.getD ""
    runQuery c ts patientsDeleteSQL [JVal.str pid]
      (fun n _ =>
        if 0 < n then
          (200, msgObj ("Patient " ++ pid ++ " deleted successfully."))
        else
          (404, msgObj ("Patient with ID " ++ pid ++ " not found.")))
      (classifyDeletePatients ts pid)

/-- Error classification of the queue-listing catch blocks (identical for
GET /waiting-queue and GET /queue). -/
def classifyQueue (ts : String) (e : QErr) : Nat × JVal :=
  if e.code = some "42P01" then
    (500, withErrMsg ("Internal Server Error: waiting_queue table not found in schema " ++ ts ++ ".") e)
  else if e.code = some "3F000" then
    (404, withErrMsg ("Tenant schema '" ++ ts ++ "' not found.") e)
  else
    (500, withErrMsg "Internal Server Error: Could not fetch waiting queue." e)

/-- GET /waiting-queue and GET /queue (the two branches are identical). -/
def queueListRoute (c : Ctx) (ts : String) : Nat × JVal × List Ev :=
  runQuery c ts waitingQueueSQL []
    (fun _ rows => (200, JVal.arr rows))
    (classifyQueue ts)

/-- Error classification of the POST /soapnotes catch block: the foreign
key case names the offending reference from the violated constraint. -/
def classifySoapPost (ts : String) (v : JVal) (e : QErr) : Nat × JVal :=
  if e.code = some "23503" then
    let fieldName := if e.constraintName = some "fk_notes_patient" then "patient_id"
      else if e.constraintName = some "fk_notes_doctor" then "doctor_id"
      else "related entity"
    let idValue := if e.constraintName = some "fk_notes_patient" then
        jsToString (reqVal v "patient_id")
      else jsToString (orNullF v "doctor_id")
    (400, msgObj ("Bad Request: Invalid " ++ fieldName ++ " provided (" ++ idValue ++ "). It does not exist."))
  else if e.code = some "22P02" then
    (400, withErrMsg "Bad Request: Invalid data format provided." e)
  else if e.code = some "3F000" then
    (404, withErrMsg ("Tenant schema '" ++ ts ++ "' not found.") e)
  else
    (500, withErrMsg "Internal Server Error: Could not save SOAP note." e)

/-- Route outcome: an immediate `return` with the early `headers` object,
or a fall-through to the shared final-response formatting. -/
inductive RouteOut where
  | early (r : Resp) (evs : List Ev)
  | fall (r : Nat × JVal × List Ev)

/-- POST /soapnotes for a successfully parsed body: the object-shape and
`patient_id` guards return immediately with 400; then the code lists are
sanitized and the parameterized INSERT runs. -/
def postSoapBodyVal (v : JVal) (c : Ctx) (ts : String) : RouteOut :=
  if jsIsObjectNotNull v = false then
    RouteOut.early ⟨400, baseHeaders c.corsOrigin,
      RBody.json (msgObj "Bad Request: Invalid JSON object in body.")⟩ []
  else if !truthyField v "patient_id" then
    RouteOut.early ⟨400, baseHeaders c.corsOrigin,
      RBody.json (msgObj "Bad Request: Missing required field 'patient_id'.")⟩ []
  else
    RouteOut.fall (runQuery c ts notesInsertSQL (noteInsertValues v)
      (fun _ rows =>
        match rows with
        | r :: _ =>
          (201, JVal.obj [("message", JVal.str "SOAP note created successfully."),
                          ("note", r)])
        | [] => classifySoapPost ts v (noRowAfterInsertErr "note"))
      (classifySoapPost ts v))

/-- POST /soapnotes: body presence/parse guards return immediately with
400, then the body-level handling. -/
def postSoapnotesRoute (ev : Event) (c : Ctx) (ts : String) : RouteOut :=
  match ev.body with
  | BodyIn.absent =>
    RouteOut.early ⟨400, baseHeaders c.corsOrigin,
      RBody.json (msgObj "Bad Request: Request body is missing.")⟩ []
  | BodyIn.malformed =>
    RouteOut.early ⟨400, baseHeaders c.corsOrigin,
      RBody.json (msgObj ("Bad Request: " ++ jsonSyntaxErr.msg))⟩ []
  | BodyIn.val v => postSoapBodyVal v c ts

/-- Error classification of the GET /soapnotes (list) catch block. -/
def classifySoapList (ts : String) (filt : Option String) (e : QErr) : Nat × JVal :=
  if e.code = some "22P02" &&
      strHas "invalid input syntax for type uuid" e.msg && filt.isSome then
    (400, msgObj ("Bad Request: Invalid format for patient_id filter '" ++ filt.getD "" ++ "'."))
  else if e.code = some "42703" && filt.isSome then
    (400, msgObj "Bad Request: Invalid filter parameter used.")
  else if e.code = some "3F000" then
    (404, withErrMsg ("Tenant schema '" ++ ts ++ "' not found.") e)
  else
    (500, withErrMsg "Internal Server Error: Could not retrieve SOAP notes list." e)

/-- GET /soapnotes with the optional `patient_id` query filter. -/
def soapListRoute (ev : Event) (c : Ctx) (ts : String) : Nat × JVal × List Ev :=
  let filt : Option String :=
    match ev.qpPatientId with
    | some s => if s != "" then some s else none
    | none => none
  let sql := notesSelectBase ++
    (match filt with
     | some _ => " WHERE patient_id = $1"
     | none => "") ++ " ORDER BY created_at DESC;"
  let vals : List JVal :=
    match filt with
    | some s => [JVal.str s]
    | none => []
  runQuery c ts sql vals
    (fun _ rows =>
      (200, JVal.obj [("message", JVal.str "SOAP notes retrieved successfully."),
                      ("notes", JVal.arr rows)]))
    (classifySoapList ts filt)

/-- Error classification of the GET /soapnotes/{id} catch block. -/
def classifySoapGet (ts nid : String) (e : QErr) : Nat × JVal :=
  if e.code = some "22P02" && strHas "invalid input syntax for type uuid" e.msg then
    (400, msgObj ("Bad Request: Invalid format for SOAP note ID '" ++ nid ++ "'."))
  else if e.code = some "3F000" then
    (404, withErrMsg ("Tenant schema '" ++ ts ++ "' not found.") e)
  else
    (500, withErrMsg ("Internal Server Error: Could not retrieve SOAP note " ++ nid ++ ".") e)

/-- GET /soapnotes/{id}. -/
def getSoapByIdRoute (ev : Event) (c : Ctx) (ts : String) : Nat × JVal × List Ev :=
  if optFalsy ev.pathId then
    (400, msgObj "Bad Request: Missing SOAP note ID in path.", [])
  else
    let nid := ev.pathId.getD ""
    runQuery c ts noteByIdSQL [JVal.str nid]
      (fun _ rows =>
        match rows with
        | r :: _ =>
          (200, JVal.obj [("message", JVal.str "SOAP note retrieved successfully."),
                          ("note", r)])
        | [] => (404, msgObj ("SOAP note with ID " ++ nid ++ " not found.")))
      (classifySoapGet ts nid)

/-- Error classification of the PUT /soapnotes/{id} inner catch block. -/
def classifyPutSoap (ts nid : String) (e : QErr) : Nat × JVal :=
  if e.code = some "22P02" then
    (400, withErrMsg "Bad Request: Invalid data format provided for SOAP note update." e)
  else if e.code = some "23503" then
    (400, withErrDetail "Bad Request: Update references an invalid entity (e.g., patient_id)." e)
  else if e.code = some "3F000" then
    (404, withErrMsg ("Tenant schema '" ++ ts ++ "' not found.") e)
  else
    (500, withErrMsg ("Internal Server Error: Could not update SOAP note " ++ nid ++ ".") e)

/-- The recognized PUT /soapnotes/{id} fields, in source order. -/
def putSoapFields (v : JVal) : List (String × JVal) :=
  pickPlain v "subjective" ++ pickPlain v "objective" ++
  pickPlain v "assessment" ++ pickPlain v "plan"

/-- The dynamic PUT /soapnotes/{id} statement (it targets the
`soap_notes` table, unlike every other notes statement). -/
def putSoapSQL (names : List String) : String :=
  "UPDATE soap_notes SET " ++ setClause names ++ " WHERE note_id = $" ++
    toString (names.length + 1) ++ " RETURNING *;"

/-- PUT /soapnotes/{id} after body parsing. -/
def putSoapBody (v : JVal) (c : Ctx) (ts nid : String) : Nat × JVal × List Ev :=
  match jsKeysLen v with
  | none =>
    ((classifyPutSoap ts nid nullKeysErr).1, (classifyPutSoap ts nid nullKeysErr).2, [])
  | some 0 => (400, msgObj "Bad Request: No fields provided for update.", [])
  | some (_ + 1) =>
    match runCtx c ts with
    | (Setup.connFail e, evs) =>
      ((classifyPutSoap ts nid e).1, (classifyPutSoap ts nid e).2, evs)
    | (Setup.setupErr e, evs) =>
      ((classifyPutSoap ts nid e).1, (classifyPutSoap ts nid e).2, evs ++ [Ev.release])
    | (Setup.ready, evs) =>
      let fields := putSoapFields v
      match fields with
      | [] =>
        (400, msgObj "Bad Request: No updatable SOAP note fields provided.",
         evs ++ [Ev.release])
      | _ :: _ =>
        let sql := putSoapSQL (fields.map Prod.fst)
        let vals := fields.map Prod.snd ++ [JVal.str nid]
        match c.mainRes with
        | QRes.err e =>
          ((classifyPutSoap ts nid e).1, (classifyPutSoap ts nid e).2,
           evs ++ [Ev.query sql vals false, Ev.release])
        | QRes.ok n rows =>
          if 0 < n then
            (200, JVal.obj [("message", JVal.str "SOAP note updated successfully."),
                            ("note", rows.headD JVal.null)],
             evs ++ [Ev.query sql vals true, Ev.release])
          else
            (404, msgObj ("SOAP note with ID " ++ nid ++ " not found."),
             evs ++ [Ev.query sql vals true, Ev.release])

/-- PUT /soapnotes/{id}: the path parameter guard and the JSON parse
(this route has a dedicated SyntaxError catch returning 400). -/
def putSoapRoute (ev : Event) (c : Ctx) (ts : String) : Nat × JVal × List Ev :=
  if optFalsy ev.pathId then
    (400, msgObj "Bad Request: Missing SOAP note ID in path.", [])
  else
    let nid := ev.pathId.getD ""
    match ev.body with
    | BodyIn.malformed =>
      (400, msgObj "Bad Request: Invalid JSON format in request body.", [])
    | BodyIn.absent => putSoapBody (JVal.obj []) c ts nid
    | BodyIn.val v => putSoapBody v c ts nid

/-- The route dispatch chain, in source order; unmatched combinations fall
to the not-found branch naming the requested path. -/
def dispatch (ev : Event) (c : Ctx) (ts : String) : RouteOut :=
  if ev.path == "/patients" && ev.httpMethod == "GET" then
    RouteOut.fall (getPatientsRoute c ts)
  else if ev.httpMethod == "POST" && ev.path == "/patients" then
    RouteOut.fall (postPatientsRoute ev c ts)
  else if ev.httpMethod == "PUT" && strStarts "/patients/" ev.path then
    RouteOut.fall (putPatientRoute ev c ts)
  else if ev.httpMethod == "DELETE" && strStarts "/patients/" ev.path then
    RouteOut.fall (deletePatientRoute ev c ts)
  else if ev.path == "/waiting-queue" && ev.httpMethod == "GET" then
    RouteOut.fall (queueListRoute c ts)
  else if ev.path == "/soapnotes" && ev.httpMethod == "POST" then
    postSoapnotesRoute ev c ts
  else if ev.httpMethod == "GET" && ev.path == "/soapnotes" then
    RouteOut.fall (soapListRoute ev c ts)
  else if ev.httpMethod == "GET" && strStarts "/soapnotes/" ev.path then
    RouteOut.fall (getSoapByIdRoute ev c ts)
  else if ev.httpMethod == "PUT" && strStarts "/soapnotes/" ev.path then
    RouteOut.fall (putSoapRoute ev c ts)
  else if ev.path == "/queue" && ev.httpMethod == "GET" then
    RouteOut.fall (queueListRoute c ts)
  else
    RouteOut.fall (404,
      JVal.obj [("message", JVal.str "Not Found"), ("requestedPath", JVal.str ev.path)], [])

/-- GET /healthcheck: always 200; a failed connectivity probe only flips
`database_status` to `Unavailable`. -/
def healthcheckRoute (c : Ctx) : Resp × List Ev :=
  let dbOk := c.connOk && qOk c.mainRes
  let evs := if c.connOk then
      [Ev.connect true, Ev.query "SELECT 1" [] (qOk c.mainRes), Ev.release]
    else [Ev.connect false]
  (⟨200, baseHeaders c.corsOrigin,
    RBody.json (JVal.obj
      [("status", JVal.str "OK"),
       ("database_status", JVal.str (if dbOk then "OK" else "Unavailable")),
       ("timestamp", JVal.str c.now)])⟩, evs)

/-- Events of a cold start's successful pool initialization: the test
borrow, the `SELECT NOW()` round trip, and the release. -/
def poolInitEvs (c : Ctx) : List Ev :=
  if c.coldStart then
    (if c.initOk then [Ev.connect true, Ev.query "SELECT NOW()" [] true, Ev.release]
     else [])
  else []

/-- The Lambda handler: OPTIONS short-circuit, lazy pool initialization,
the tenant-exempt healthcheck, the tenant-claim guard, and the dispatch
chain whose fall-through results are wrapped with the merged headers. -/
def handler (ev : Event) (c : Ctx) : Resp × List Ev :=
  if ev.httpMethod == "OPTIONS" then
    (⟨204, optionsHeaders c.corsOrigin, RBody.raw ""⟩, [])
  else if c.coldStart && !c.initOk then
    (⟨500, baseHeaders c.corsOrigin,
      RBody.json (JVal.obj
        [("message", JVal.str "Internal Server Error: Could not connect to database."),
         ("error", JVal.str c.initErrMsg)])⟩, poolInitEvs c)
  else if ev.path == "/healthcheck" && ev.httpMethod == "GET" then
    let r := healthcheckRoute c
    (r.1, poolInitEvs c ++ r.2)
  else
    match tenantFromClaims ev.clinicId with
    | none =>
      (⟨400, baseHeaders c.corsOrigin,
        RBody.json (msgObj "Bad Request: Tenant identifier missing or invalid in user token.")⟩,
       poolInitEvs c)
    | some ts =>
      match dispatch ev c ts with
      | RouteOut.early r evs => (r, poolInitEvs c ++ evs)
      | RouteOut.fall (s, b, evs) =>
        (⟨s, finalHeaders c.corsOrigin, RBody.json b⟩, poolInitEvs c ++ evs)

/-- A row of the per-tenant `patients` table (columns the queue join
reads). -/
structure PatientRec where
  patient_id : Nat
  first_name : String
  last_name : String
deriving DecidableEq

/-- A row of the per-tenant `waiting_queue` table. -/
structure QueueRec where
  queue_entry_id : Nat
  patient_id : Nat
  queue_timestamp : Nat
  status : String
  notes : String
deriving DecidableEq

/-- The database state the queue-listing statement reads. -/
structure DBState where
  patients : List PatientRec
  queue : List QueueRec

/-- Semantics of `FROM waiting_queue wq JOIN patients p ON wq.patient_id =
p.patient_id`: one row per matching pair. -/
def joinRows (st : DBState) : List (QueueRec × PatientRec) :=
  st.queue.flatMap (fun q =>
    (st.patients.filter (fun p => p.patient_id = q.patient_id)).map (fun p => (q, p)))

/-- Comparison used by `ORDER BY wq.queue_timestamp ASC`. -/
def queueLE (a b : QueueRec × PatientRec) : Prop :=
  a.1.queue_timestamp ≤ b.1.queue_timestamp

instance : DecidableRel queueLE := fun a b =>
  inferInstanceAs (Decidable (a.1.queue_timestamp ≤ b.1.queue_timestamp))

/-- Semantics of the full queue-listing statement: the join ordered by
enqueue timestamp ascending (a deterministic stable sort models the
deterministic ordering the claim relies on). -/
def waitingQueuePairs (st : DBState) : List (QueueRec × PatientRec) :=
  (joinRows st).insertionSort queueLE

/-- The projected columns of one result row of the queue listing. -/
def queueRowJVal (q : QueueRec) (p : PatientRec) : JVal :=
  JVal.obj
    [("queue_entry_id", JVal.num q.queue_entry_id),
     ("patient_id", JVal.num q.patient_id),
     ("first_name", JVal.str p.first_name),
     ("last_name", JVal.str p.last_name),
     ("queue_timestamp", JVal.num q.queue_timestamp),
     ("status", JVal.str q.status),
     ("notes", JVal.str q.notes)]

/-- The rows the database returns for the queue listing over `st`. -/
def waitingQueueRows (st : DBState) : List JVal :=
  (waitingQueuePairs st).map (fun qp => queueRowJVal qp.1 qp.2)

/-- A context whose main statement answers the queue listing from `st`. -/
def ctxForQueue (st : DBState) (co : Option String) : Ctx :=
  ⟨false, true, "", true, ⟨none, "", none, none⟩, QRes.ok 0 [],
   QRes.ok (waitingQueueRows st).length (waitingQueueRows st), co, ""⟩

/-- Trace well-formedness: borrows and releases alternate, a failed borrow
borrows nothing, statements run only on a borrowed connection, and every
borrowed connection is released exactly once. -/
def balAux : Bool → List Ev → Bool
  | false, [] => true
  | true, [] => false
  | false, Ev.connect true :: r => balAux true r
  | false, Ev.connect false :: r => balAux false r
  | false, Ev.query _ _ _ :: _ => false
  | false, Ev.release :: _ => false
  | true, Ev.query _ _ _ :: r => balAux true r
  | true, Ev.release :: r => balAux false r
  | true, Ev.connect _ :: _ => false

/-- A trace is balanced when it starts and ends outside any borrow. -/
def balanced (t : List Ev) : Bool := balAux false t

/-- Whether an event is a `SET search_path` directive. -/
def isSetEv : Ev → Bool
  | Ev.query sql _ _ => listStarts "SET search_path".data sql.data
  | _ => false

/-- Whether an event is an INSERT statement. -/
def isInsertEv : Ev → Bool
  | Ev.query sql _ _ => listStarts "INSERT".data sql.data
  | _ => false

/-- At most one `SET search_path` directive between any borrow and the
next (the counter is the number of directives seen in the current
segment). -/
def segSetsLE1 : Nat → List Ev → Bool
  | _, [] => true
  | _, Ev.connect _ :: r => segSetsLE1 0 r
  | n, Ev.query sql ps ok :: r =>
    if isSetEv (Ev.query sql ps ok) then n == 0 && segSetsLE1 1 r
    else segSetsLE1 n r
  | n, Ev.release :: r => segSetsLE1 n r

/-- Every `SET search_path` directive in the trace is exactly the one
`setTenantSearchPath` builds for `ts`. -/
def setsCanonical (ts : String) (t : List Ev) : Bool :=
  t.all (fun e =>
    match e with
    | Ev.query sql _ _ =>
      !listStarts "SET search_path".data sql.data || sql == mkSetQuery ts
    | _ => true)

/-- No `SET search_path` directive occurs in the trace. -/
def noSets (t : List Ev) : Bool := t.all (fun e => !isSetEv e)

/-- No INSERT statement occurs in the trace. -/
def noInserts (t : List Ev) : Bool := t.all (fun e => !isInsertEv e)

/-- Whether a JSON response body is an object carrying a `message` key. -/
def jvalHasMessage : JVal → Bool
  | JVal.obj fs => (List.lookup "message" fs).isSome
  | _ => false

/-- Whether a response body is a JSON object carrying a `message` key. -/
def hasMessageField : RBody → Bool
  | RBody.json v => jvalHasMessage v
  | RBody.raw _ => false

/-- The response carries the fixed CORS allow-headers for the deployment's
configured origin. -/
def corsOk (co : Option String) (r : Resp) : Bool :=
  List.lookup "Access-Control-Allow-Origin" r.headers == some (co.getD "*") &&
  List.lookup "Access-Control-Allow-Headers" r.headers == some "Content-Type, Authorization" &&
  List.lookup "Access-Control-Allow-Methods" r.headers == some "OPTIONS,POST,GET,PUT,DELETE"

theorem finalHeaders_eq_base (co : Option String) : finalHeaders co = baseHeaders co := rfl

theorem isSetEv_mkSetQuery (ts : String) (ps : List JVal) (ok : Bool) :
    isSetEv (Ev.query (mkSetQuery ts) ps ok) = true := rfl

theorem isSetEv_putPatientsSQL (names : List String) (ps : List JVal) (ok : Bool) :
    isSetEv (Ev.query (putPatientsSQL names) ps ok) = false := rfl

theorem isSetEv_putSoapSQL (names : List String) (ps : List JVal) (ok : Bool) :
    isSetEv (Ev.query (putSoapSQL names) ps ok) = false := rfl

theorem isSetEv_soapList (tail : String) (ps : List JVal) (ok : Bool) :
    isSetEv (Ev.query (notesSelectBase ++ tail) ps ok) = false := rfl

theorem runQuery_balanced (c : Ctx) (ts sql : String) (ps : List JVal)
    (f : Nat → List JVal → Nat × JVal) (g : QErr → Nat × JVal) :
    balanced (runQuery c ts sql ps f g).2.2 = true := by
  unfold runQuery runCtx setTenantSearchPath
  by_cases hc : c.connOk = false
  · simp [hc, balanced, balAux]
  · by_cases hv : isValidSchemaName ts = false
    · simp [hc, hv, balanced, balAux]
    · cases hr : c.setPathRes with
      | err e => simp [hc, hv, hr, balanced, balAux]
      | ok n rows =>
        cases hm : c.mainRes with
        | err e => simp [hc, hv, hr, hm, balanced, balAux]
        | ok n2 rows2 => simp [hc, hv, hr, hm, balanced, balAux]

theorem runQuery_segSets (c : Ctx) (ts sql : String) (ps : List JVal)
    (f : Nat → List JVal → Nat × JVal) (g : QErr → Nat × JVal)
    (hs : isSetEv (Ev.query sql ps false) = false)
    (hs2 : isSetEv (Ev.query sql ps true) = false) :
    segSetsLE1 0 (runQuery c ts sql ps f g).2.2 = true := by
  unfold runQuery runCtx setTenantSearchPath
  by_cases hc : c.connOk = false
  · simp [hc, segSetsLE1]
  · by_cases hv : isValidSchemaName ts = false
    · simp [hc, hv, segSetsLE1]
    · cases hr : c.setPathRes with
      | err e => simp [hc, hv, hr, segSetsLE1, isSetEv_mkSetQuery]
      | ok n rows =>
        cases hm : c.mainRes with
        | err e => simp [hc, hv, hr, hm, segSetsLE1, isSetEv_mkSetQuery, hs]
        | ok n2 rows2 => simp [hc, hv, hr, hm, segSetsLE1, isSetEv_mkSetQuery, hs2]

theorem runQuery_setsCanonical (c : Ctx) (ts sql : String) (ps : List JVal)
    (f : Nat → List JVal → Nat × JVal) (g : QErr → Nat × JVal)
    (hs : listStarts "SET search_path".data sql.data = false) :
    setsCanonical ts (runQuery c ts sql ps f g).2.2 = true := by
  unfold runQuery runCtx setTenantSearchPath
  by_cases hc : c.connOk = false
  · simp [hc, setsCanonical]
  · by_cases hv : isValidSchemaName ts = false
    · simp [hc, hv, setsCanonical]
    · cases hr : c.setPathRes with
      | err e => simp [hc, hv, hr, setsCanonical]
      | ok n rows =>
        cases hm : c.mainRes with
        | err e => simp [hc, hv, hr, hm, setsCanonical, hs]
        | ok n2 rows2 => simp [hc, hv, hr, hm, setsCanonical, hs]

theorem runQuery_msg (c : Ctx) (ts sql : String) (ps : List JVal)
    (f : Nat → List JVal → Nat × JVal) (g : QErr → Nat × JVal)
    (hf : ∀ n rows, 400 ≤ (f n rows).1 → jvalHasMessage (f n rows).2 = true)
    (hg : ∀ e, 400 ≤ (g e).1 → jvalHasMessage (g e).2 = true) :
    400 ≤ (runQuery c ts sql ps f g).1 →
      jvalHasMessage (runQuery c ts sql ps f g).2.1 = true := by
  unfold runQuery runCtx setTenantSearchPath
  by_cases hc : c.connOk = false
  · simpa [hc] using hg c.connErr
  · by_cases hv : isValidSchemaName ts = false
    · simpa [hc, hv] using hg invalidTenantErr
    · cases hr : c.setPathRes with
      | err e => simpa [hc, hv, hr] using hg e
      | ok n rows =>
        cases hm : c.mainRes with
        | err e => simpa [hc, hv, hr, hm] using hg e
        | ok n2 rows2 => simpa [hc, hv, hr, hm] using hf n2 rows2

theorem isSetEv_selectNow (ps : List JVal) (b : Bool) :
    isSetEv (Ev.query "SELECT NOW()" ps b) = false := rfl

theorem isSetEv_selectOne (ps : List JVal) (b : Bool) :
    isSetEv (Ev.query "SELECT 1" ps b) = false := rfl

/-- Events of a `RouteOut`. -/
def outEvs : RouteOut → List Ev
  | RouteOut.early _ evs => evs
  | RouteOut.fall r => r.2.2


theorem isSetEv_patientsSelect (ps : List JVal) (b : Bool) :
    isSetEv (Ev.query patientsSelectSQL ps b) = false := rfl

theorem isSetEv_patientsInsert (ps : List JVal) (b : Bool) :
    isSetEv (Ev.query patientsInsertSQL ps b) = false := rfl

theorem isSetEv_patientsDelete (ps : List JVal) (b : Bool) :
    isSetEv (Ev.query patientsDeleteSQL ps b) = false := rfl

theorem isSetEv_waitingQueue (ps : List JVal) (b : Bool) :
    isSetEv (Ev.query waitingQueueSQL ps b) = false := rfl

theorem isSetEv_notesInsert (ps : List JVal) (b : Bool) :
    isSetEv (Ev.query notesInsertSQL ps b) = false := rfl

theorem isSetEv_noteById (ps : List JVal) (b : Bool) :
    isSetEv (Ev.query noteByIdSQL ps b) = false := rfl

theorem getPatientsRoute_balanced (c : Ctx) (ts : String) :
    balanced (getPatientsRoute c ts).2.2 = true :=
  runQuery_balanced ..

theorem getPatientsRoute_segSets (c : Ctx) (ts : String) :
    segSetsLE1 0 (getPatientsRoute c ts).2.2 = true :=
  runQuery_segSets c ts patientsSelectSQL [] _ _
    (isSetEv_patientsSelect [] false) (isSetEv_patientsSelect [] true)

theorem getPatientsRoute_sets (c : Ctx) (ts : String) :
    setsCanonical ts (getPatientsRoute c ts).2.2 = true :=
  runQuery_setsCanonical c ts patientsSelectSQL [] _ _ rfl

theorem postPatientsBody_balanced (v : JVal) (c : Ctx) (ts : String) :
    balanced (postPatientsBody v c ts).2.2 = true := by
  unfold postPatientsBody
  split
  · rfl
  · split
    · rfl
    · apply runQuery_balanced

theorem postPatientsBody_segSets (v : JVal) (c : Ctx) (ts : String) :
    segSetsLE1 0 (postPatientsBody v c ts).2.2 = true := by
  unfold postPatientsBody
  split
  · rfl
  · split
    · rfl
    · exact runQuery_segSets c ts patientsInsertSQL (patientInsertValues v) _ _
        (isSetEv_patientsInsert _ false) (isSetEv_patientsInsert _ true)

theorem postPatientsBody_sets (v : JVal) (c : Ctx) (ts : String) :
    setsCanonical ts (postPatientsBody v c ts).2.2 = true := by
  unfold postPatientsBody
  split
  · rfl
  · split
    · rfl
    · exact runQuery_setsCanonical c ts patientsInsertSQL (patientInsertValues v) _ _ rfl

theorem postPatientsRoute_balanced (ev : Event) (c : Ctx) (ts : String) :
    balanced (postPatientsRoute ev c ts).2.2 = true := by
  obtain ⟨m, p, b, cid, pid, qp⟩ := ev
  cases b with
  | malformed => rfl
  | absent => exact postPatientsBody_balanced ..
  | val v => exact postPatientsBody_balanced ..

theorem postPatientsRoute_segSets (ev : Event) (c : Ctx) (ts : String) :
    segSetsLE1 0 (postPatientsRoute ev c ts).2.2 = true := by
  obtain ⟨m, p, b, cid, pid, qp⟩ := ev
  cases b with
  | malformed => rfl
  | absent => exact postPatientsBody_segSets ..
  | val v => exact postPatientsBody_segSets ..

theorem postPatientsRoute_sets (ev : Event) (c : Ctx) (ts : String) :
    setsCanonical ts (postPatientsRoute ev c ts).2.2 = true := by
  obtain ⟨m, p, b, cid, pid, qp⟩ := ev
  cases b with
  | malformed => rfl
  | absent => exact postPatientsBody_sets ..
  | val v => exact postPatientsBody_sets ..

theorem deletePatientRoute_balanced (ev : Event) (c : Ctx) (ts : String) :
    balanced (deletePatientRoute ev c ts).2.2 = true := by
  unfold deletePatientRoute
  split
  · rfl
  · apply runQuery_balanced

theorem deletePatientRoute_segSets (ev : Event) (c : Ctx) (ts : String) :
    segSetsLE1 0 (deletePatientRoute ev c ts).2.2 = true := by
  unfold deletePatientRoute
  split
  · rfl
  · exact runQuery_segSets c ts patientsDeleteSQL _ _ _
      (isSetEv_patientsDelete _ false) (isSetEv_patientsDelete _ true)

theorem deletePatientRoute_sets (ev : Event) (c : Ctx) (ts : String) :
    setsCanonical ts (deletePatientRoute ev c ts).2.2 = true := by
  unfold deletePatientRoute
  split
  · rfl
  · exact runQuery_setsCanonical c ts patientsDeleteSQL _ _ _ rfl

theorem queueListRoute_balanced (c : Ctx) (ts : String) :
    balanced (queueListRoute c ts).2.2 = true :=
  runQuery_balanced ..

theorem queueListRoute_segSets (c : Ctx) (ts : String) :
    segSetsLE1 0 (queueListRoute c ts).2.2 = true :=
  runQuery_segSets c ts waitingQueueSQL [] _ _
    (isSetEv_waitingQueue [] false) (isSetEv_waitingQueue [] true)

theorem queueListRoute_sets (c : Ctx) (ts : String) :
    setsCanonical ts (queueListRoute c ts).2.2 = true :=
  runQuery_setsCanonical c ts waitingQueueSQL [] _ _ rfl

theorem postSoapBodyVal_balanced (v : JVal) (c : Ctx) (ts : String) :
    balanced (outEvs (postSoapBodyVal v c ts)) = true := by
  unfold postSoapBodyVal
  split
  · rfl
  · split
    · rfl
    · apply runQuery_balanced

theorem postSoapBodyVal_segSets (v : JVal) (c : Ctx) (ts : String) :
    segSetsLE1 0 (outEvs (postSoapBodyVal v c ts)) = true := by
  unfold postSoapBodyVal
  split
  · rfl
  · split
    · rfl
    · exact runQuery_segSets c ts notesInsertSQL (noteInsertValues v) _ _
        (isSetEv_notesInsert _ false) (isSetEv_notesInsert _ true)

theorem postSoapBodyVal_sets (v : JVal) (c : Ctx) (ts : String) :
    setsCanonical ts (outEvs (postSoapBodyVal v c ts)) = true := by
  unfold postSoapBodyVal
  split
  · rfl
  · split
    · rfl
    · exact runQuery_setsCanonical c ts notesInsertSQL (noteInsertValues v) _ _ rfl

theorem postSoapnotesRoute_balanced (ev : Event) (c : Ctx) (ts : String) :
    balanced (outEvs (postSoapnotesRoute ev c ts)) = true := by
  obtain ⟨m, p, b, cid, pid, qp⟩ := ev
  cases b with
  | absent => rfl
  | malformed => rfl
  | val v => exact postSoapBodyVal_balanced ..

theorem postSoapnotesRoute_segSets (ev : Event) (c : Ctx) (ts : String) :
    segSetsLE1 0 (outEvs (postSoapnotesRoute ev c ts)) = true := by
  obtain ⟨m, p, b, cid, pid, qp⟩ := ev
  cases b with
  | absent => rfl
  | malformed => rfl
  | val v => exact postSoapBodyVal_segSets ..

theorem postSoapnotesRoute_sets (ev : Event) (c : Ctx) (ts : String) :
    setsCanonical ts (outEvs (postSoapnotesRoute ev c ts)) = true := by
  obtain ⟨m, p, b, cid, pid, qp⟩ := ev
  cases b with
  | absent => rfl
  | malformed => rfl
  | val v => exact postSoapBodyVal_sets ..

theorem soapListRoute_balanced (ev : Event) (c : Ctx) (ts : String) :
    balanced (soapListRoute ev c ts).2.2 = true := by
  unfold soapListRoute
  apply runQuery_balanced

theorem soapListRoute_segSets (ev : Event) (c : Ctx) (ts : String) :
    segSetsLE1 0 (soapListRoute ev c ts).2.2 = true := by
  unfold soapListRoute
  apply runQuery_segSets
  · rfl
  · rfl

theorem soapListRoute_sets (ev : Event) (c : Ctx) (ts : String) :
    setsCanonical ts (soapListRoute ev c ts).2.2 = true := by
  unfold soapListRoute
  apply runQuery_setsCanonical
  rfl

theorem getSoapByIdRoute_balanced (ev : Event) (c : Ctx) (ts : String) :
    balanced (getSoapByIdRoute ev c ts).2.2 = true := by
  unfold getSoapByIdRoute
  split
  · rfl
  · apply runQuery_balanced

theorem getSoapByIdRoute_segSets (ev : Event) (c : Ctx) (ts : String) :
    segSetsLE1 0 (getSoapByIdRoute ev c ts).2.2 = true := by
  unfold getSoapByIdRoute
  split
  · rfl
  · exact runQuery_segSets c ts noteByIdSQL _ _ _
      (isSetEv_noteById _ false) (isSetEv_noteById _ true)

theorem getSoapByIdRoute_sets (ev : Event) (c : Ctx) (ts : String) :
    setsCanonical ts (getSoapByIdRoute ev c ts).2.2 = true := by
  unfold getSoapByIdRoute
  split
  · rfl
  · exact runQuery_setsCanonical c ts noteByIdSQL _ _ _ rfl

theorem listStarts_set_mk (ts : String) :
    listStarts "SET search_path".data (mkSetQuery ts).data = true := rfl

theorem listStarts_set_putPatients (names : List String) :
    listStarts "SET search_path".data (putPatientsSQL names).data = false := rfl

theorem listStarts_set_putSoap (names : List String) :
    listStarts "SET search_path".data (putSoapSQL names).data = false := rfl

theorem listStarts_lit_mk (ts : String) :
    listStarts ['S', 'E', 'T', ' ', 's', 'e', 'a', 'r', 'c', 'h', '_', 'p', 'a', 't', 'h']
      (mkSetQuery ts).data = true := rfl

theorem listStarts_lit_putPatients (names : List String) :
    listStarts ['S', 'E', 'T', ' ', 's', 'e', 'a', 'r', 'c', 'h', '_', 'p', 'a', 't', 'h']
      (putPatientsSQL names).data = false := rfl

theorem listStarts_lit_putSoap (names : List String) :
    listStarts ['S', 'E', 'T', ' ', 's', 'e', 'a', 'r', 'c', 'h', '_', 'p', 'a', 't', 'h']
      (putSoapSQL names).data = false := rfl

theorem putPatientBody_balanced (v : JVal) (c : Ctx) (ts pid : String) :
    balanced (putPatientBody v c ts pid).2.2 = true := by
  unfold putPatientBody runCtx setTenantSearchPath
  cases hk : jsKeysLen v with
  | none => rfl
  | some k =>
    cases k with
    | zero => rfl
    | succ k2 =>
      by_cases hc : c.connOk = false
      · simp [hc, balanced, balAux]
      · by_cases hv : isValidSchemaName ts = false
        · simp [hc, hv, balanced, balAux]
        · cases hr : c.setPathRes with
          | err e => simp [hc, hv, hr, balanced, balAux]
          | ok n rows =>
            cases hf : putPatientFields v with
            | nil => simp [hc, hv, hr, hf, balanced, balAux]
            | cons f fs =>
              cases hm : c.mainRes with
              | err e => simp [hc, hv, hr, hm, hf, balanced, balAux]
              | ok n2 rows2 =>
                by_cases hn : 0 < n2 <;>
                  simp [hc, hv, hr, hm, hf, hn, balanced, balAux]

theorem putPatientBody_segSets (v : JVal) (c : Ctx) (ts pid : String) :
    segSetsLE1 0 (putPatientBody v c ts pid).2.2 = true := by
  unfold putPatientBody runCtx setTenantSearchPath
  cases hk : jsKeysLen v with
  | none => rfl
  | some k =>
    cases k with
    | zero => rfl
    | succ k2 =>
      by_cases hc : c.connOk = false
      · simp [hc, segSetsLE1]
      · by_cases hv : isValidSchemaName ts = false
        · simp [hc, hv, segSetsLE1]
        · cases hr : c.setPathRes with
          | err e => simp [hc, hv, hr, segSetsLE1, isSetEv, listStarts_set_mk, listStarts_lit_mk]
          | ok n rows =>
            cases hf : putPatientFields v with
            | nil => simp [hc, hv, hr, hf, segSetsLE1, isSetEv, listStarts_set_mk, listStarts_lit_mk]
            | cons f fs =>
              cases hm : c.mainRes with
              | err e =>
                simp [hc, hv, hr, hm, hf, segSetsLE1, isSetEv,
                  listStarts_set_mk, listStarts_set_putPatients, listStarts_lit_mk, listStarts_lit_putPatients]
              | ok n2 rows2 =>
                by_cases hn : 0 < n2 <;>
                  simp [hc, hv, hr, hm, hf, hn, segSetsLE1, isSetEv,
                    listStarts_set_mk, listStarts_set_putPatients, listStarts_lit_mk, listStarts_lit_putPatients]

theorem putPatientBody_sets (v : JVal) (c : Ctx) (ts pid : String) :
    setsCanonical ts (putPatientBody v c ts pid).2.2 = true := by
  unfold putPatientBody runCtx setTenantSearchPath
  cases hk : jsKeysLen v with
  | none => rfl
  | some k =>
    cases k with
    | zero => rfl
    | succ k2 =>
      by_cases hc : c.connOk = false
      · simp [hc, setsCanonical]
      · by_cases hv : isValidSchemaName ts = false
        · simp [hc, hv, setsCanonical]
        · cases hr : c.setPathRes with
          | err e => simp [hc, hv, hr, setsCanonical]
          | ok n rows =>
            cases hf : putPatientFields v with
            | nil => simp [hc, hv, hr, hf, setsCanonical]
            | cons f fs =>
              cases hm : c.mainRes with
              | err e =>
                simp [hc, hv, hr, hm, hf, setsCanonical, listStarts_set_putPatients, listStarts_lit_putPatients, listStarts_lit_mk]
              | ok n2 rows2 =>
                by_cases hn : 0 < n2 <;>
                  simp [hc, hv, hr, hm, hf, hn, setsCanonical, listStarts_set_putPatients, listStarts_lit_putPatients, listStarts_lit_mk]

theorem putSoapBody_balanced (v : JVal) (c : Ctx) (ts nid : String) :
    balanced (putSoapBody v c ts nid).2.2 = true := by
  unfold putSoapBody runCtx setTenantSearchPath
  cases hk : jsKeysLen v with
  | none => rfl
  | some k =>
    cases k with
    | zero => rfl
    | succ k2 =>
      by_cases hc : c.connOk = false
      · simp [hc, balanced, balAux]
      · by_cases hv : isValidSchemaName ts = false
        · simp [hc, hv, balanced, balAux]
        · cases hr : c.setPathRes with
          | err e => simp [hc, hv, hr, balanced, balAux]
          | ok n rows =>
            cases hf : putSoapFields v with
            | nil => simp [hc, hv, hr, hf, balanced, balAux]
            | cons f fs =>
              cases hm : c.mainRes with
              | err e => simp [hc, hv, hr, hm, hf, balanced, balAux]
              | ok n2 rows2 =>
                by_cases hn : 0 < n2 <;>
                  simp [hc, hv, hr, hm, hf, hn, balanced, balAux]

theorem putSoapBody_segSets (v : JVal) (c : Ctx) (ts nid : String) :
    segSetsLE1 0 (putSoapBody v c ts nid).2.2 = true := by
  unfold putSoapBody runCtx setTenantSearchPath
  cases hk : jsKeysLen v with
  | none => rfl
  | some k =>
    cases k with
    | zero => rfl
    | succ k2 =>
      by_cases hc : c.connOk = false
      · simp [hc, segSetsLE1]
      · by_cases hv : isValidSchemaName ts = false
        · simp [hc, hv, segSetsLE1]
        · cases hr : c.setPathRes with
          | err e => simp [hc, hv, hr, segSetsLE1, isSetEv, listStarts_set_mk, listStarts_lit_mk]
          | ok n rows =>
            cases hf : putSoapFields v with
            | nil => simp [hc, hv, hr, hf, segSetsLE1, isSetEv, listStarts_set_mk, listStarts_lit_mk]
            | cons f fs =>
              cases hm : c.mainRes with
              | err e =>
                simp [hc, hv, hr, hm, hf, segSetsLE1, isSetEv,
                  listStarts_set_mk, listStarts_set_putSoap, listStarts_lit_mk, listStarts_lit_putSoap]
              | ok n2 rows2 =>
                by_cases hn : 0 < n2 <;>
                  simp [hc, hv, hr, hm, hf, hn, segSetsLE1, isSetEv,
                    listStarts_set_mk, listStarts_set_putSoap, listStarts_lit_mk, listStarts_lit_putSoap]

theorem putSoapBody_sets (v : JVal) (c : Ctx) (ts nid : String) :
    setsCanonical ts (putSoapBody v c ts nid).2.2 = true := by
  unfold putSoapBody runCtx setTenantSearchPath
  cases hk : jsKeysLen v with
  | none => rfl
  | some k =>
    cases k with
    | zero => rfl
    | succ k2 =>
      by_cases hc : c.connOk = false
      · simp [hc, setsCanonical]
      · by_cases hv : isValidSchemaName ts = false
        · simp [hc, hv, setsCanonical]
        · cases hr : c.setPathRes with
          | err e => simp [hc, hv, hr, setsCanonical]
          | ok n rows =>
            cases hf : putSoapFields v with
            | nil => simp [hc, hv, hr, hf, setsCanonical]
            | cons f fs =>
              cases hm : c.mainRes with
              | err e =>
                simp [hc, hv, hr, hm, hf, setsCanonical, listStarts_set_putSoap,
                  listStarts_lit_putSoap, listStarts_lit_mk]
              | ok n2 rows2 =>
                by_cases hn : 0 < n2 <;>
                  simp [hc, hv, hr, hm, hf, hn, setsCanonical, listStarts_set_putSoap,
                    listStarts_lit_putSoap, listStarts_lit_mk]

theorem putPatientRoute_balanced (ev : Event) (c : Ctx) (ts : String) :
    balanced (putPatientRoute ev c ts).2.2 = true := by
  obtain ⟨m, p, b, cid, pid, qp⟩ := ev
  unfold putPatientRoute
  split
  · rfl
  · cases b with
    | malformed => rfl
    | absent => exact putPatientBody_balanced ..
    | val v => exact putPatientBody_balanced ..

theorem putPatientRoute_segSets (ev : Event) (c : Ctx) (ts : String) :
    segSetsLE1 0 (putPatientRoute ev c ts).2.2 = true := by
  obtain ⟨m, p, b, cid, pid, qp⟩ := ev
  unfold putPatientRoute
  split
  · rfl
  · cases b with
    | malformed => rfl
    | absent => exact putPatientBody_segSets ..
    | val v => exact putPatientBody_segSets ..

theorem putPatientRoute_sets (ev : Event) (c : Ctx) (ts : String) :
    setsCanonical ts (putPatientRoute ev c ts).2.2 = true := by
  obtain ⟨m, p, b, cid, pid, qp⟩ := ev
  unfold putPatientRoute
  split
  · rfl
  · cases b with
    | malformed => rfl
    | absent => exact putPatientBody_sets ..
    | val v => exact putPatientBody_sets ..

theorem putSoapRoute_balanced (ev : Event) (c : Ctx) (ts : String) :
    balanced (putSoapRoute ev c ts).2.2 = true := by
  obtain ⟨m, p, b, cid, pid, qp⟩ := ev
  unfold putSoapRoute
  split
  · rfl
  · cases b with
    | malformed => rfl
    | absent => exact putSoapBody_balanced ..
    | val v => exact putSoapBody_balanced ..

theorem putSoapRoute_segSets (ev : Event) (c : Ctx) (ts : String) :
    segSetsLE1 0 (putSoapRoute ev c ts).2.2 = true := by
  obtain ⟨m, p, b, cid, pid, qp⟩ := ev
  unfold putSoapRoute
  split
  · rfl
  · cases b with
    | malformed => rfl
    | absent => exact putSoapBody_segSets ..
    | val v => exact putSoapBody_segSets ..

theorem putSoapRoute_sets (ev : Event) (c : Ctx) (ts : String) :
    setsCanonical ts (putSoapRoute ev c ts).2.2 = true := by
  obtain ⟨m, p, b, cid, pid, qp⟩ := ev
  unfold putSoapRoute
  split
  · rfl
  · cases b with
    | malformed => rfl
    | absent => exact putSoapBody_sets ..
    | val v => exact putSoapBody_sets ..

theorem healthcheckRoute_balanced (c : Ctx) :
    balanced (healthcheckRoute c).2 = true := by
  unfold healthcheckRoute
  by_cases hc : c.connOk = true <;> simp [hc, balanced, balAux]

theorem healthcheckRoute_noSets (c : Ctx) :
    noSets (healthcheckRoute c).2 = true := by
  unfold healthcheckRoute
  by_cases hc : c.connOk = true <;> simp [hc, noSets, isSetEv] <;> decide

theorem healthcheckRoute_segSets (c : Ctx) :
    segSetsLE1 0 (healthcheckRoute c).2 = true := by
  unfold healthcheckRoute
  by_cases hc : c.connOk = true <;> simp [hc, segSetsLE1, isSetEv] <;> decide

theorem balanced_initAppend (c : Ctx) (t : List Ev) (h : balanced t = true) :
    balanced (poolInitEvs c ++ t) = true := by
  unfold poolInitEvs
  by_cases h1 : c.coldStart = true <;> by_cases h2 : c.initOk = true <;>
    simp [h1, h2] <;> simpa [balanced, balAux] using h

theorem segSets_initAppend (c : Ctx) (t : List Ev)
    (h : segSetsLE1 0 t = true) : segSetsLE1 0 (poolInitEvs c ++ t) = true := by
  unfold poolInitEvs
  by_cases h1 : c.coldStart = true <;> by_cases h2 : c.initOk = true <;>
    simp [h1, h2] <;> simpa [segSetsLE1, isSetEv] using h

theorem noSets_poolInit (c : Ctx) : noSets (poolInitEvs c) = true := by
  unfold poolInitEvs
  by_cases h1 : c.coldStart = true <;> by_cases h2 : c.initOk = true <;>
    simp [h1, h2, noSets, isSetEv] <;> decide

theorem noSets_append (a b : List Ev) (ha : noSets a = true) (hb : noSets b = true) :
    noSets (a ++ b) = true := by
  simp only [noSets, List.all_append] at *
  simp [ha, hb]

theorem setsCanonical_append (ts : String) (a b : List Ev)
    (ha : setsCanonical ts a = true) (hb : setsCanonical ts b = true) :
    setsCanonical ts (a ++ b) = true := by
  simp only [setsCanonical, List.all_append] at *
  simp [ha, hb]

theorem setsCanonical_of_noSets (ts : String) (a : List Ev)
    (ha : noSets a = true) : setsCanonical ts a = true := by
  simp only [noSets, setsCanonical, List.all_eq_true] at *
  intro e he
  have := ha e he
  cases e with
  | connect ok => simp
  | release => simp
  | query sql ps ok =>
    simp only [isSetEv, Bool.not_eq_true'] at this
    simp [this]

theorem dispatch_balanced (ev : Event) (c : Ctx) (ts : String) :
    balanced (outEvs (dispatch ev c ts)) = true := by
  unfold dispatch
  repeat' split
  all_goals
    first
    | exact getPatientsRoute_balanced ..
    | exact postPatientsRoute_balanced ..
    | exact putPatientRoute_balanced ..
    | exact deletePatientRoute_balanced ..
    | exact queueListRoute_balanced ..
    | exact postSoapnotesRoute_balanced ..
    | exact soapListRoute_balanced ..
    | exact getSoapByIdRoute_balanced ..
    | exact putSoapRoute_balanced ..
    | rfl

theorem dispatch_segSets (ev : Event) (c : Ctx) (ts : String) :
    segSetsLE1 0 (outEvs (dispatch ev c ts)) = true := by
  unfold dispatch
  repeat' split
  all_goals
    first
    | exact getPatientsRoute_segSets ..
    | exact postPatientsRoute_segSets ..
    | exact putPatientRoute_segSets ..
    | exact deletePatientRoute_segSets ..
    | exact queueListRoute_segSets ..
    | exact postSoapnotesRoute_segSets ..
    | exact soapListRoute_segSets ..
    | exact getSoapByIdRoute_segSets ..
    | exact putSoapRoute_segSets ..
    | rfl

theorem dispatch_sets (ev : Event) (c : Ctx) (ts : String) :
    setsCanonical ts (outEvs (dispatch ev c ts)) = true := by
  unfold dispatch
  repeat' split
  all_goals
    first
    | exact getPatientsRoute_sets ..
    | exact postPatientsRoute_sets ..
    | exact putPatientRoute_sets ..
    | exact deletePatientRoute_sets ..
    | exact queueListRoute_sets ..
    | exact postSoapnotesRoute_sets ..
    | exact soapListRoute_sets ..
    | exact getSoapByIdRoute_sets ..
    | exact putSoapRoute_sets ..
    | rfl

theorem handler_balanced_aux (ev : Event) (c : Ctx) :
    balanced (handler ev c).2 = true := by
  unfold handler
  split
  · rfl
  · split
    · simpa using balanced_initAppend c [] rfl
    · split
      · exact balanced_initAppend c _ (healthcheckRoute_balanced c)
      · cases ht : tenantFromClaims ev.clinicId with
        | none => simpa using balanced_initAppend c [] rfl
        | some ts =>
          have h := dispatch_balanced ev c ts
          cases hd : dispatch ev c ts with
          | early r evs =>
            rw [hd] at h
            simpa [hd, outEvs] using balanced_initAppend c _ h
          | fall r =>
            obtain ⟨s, b, evs⟩ := r
            rw [hd] at h
            simpa [hd, outEvs] using balanced_initAppend c _ h

theorem handler_segSets_aux (ev : Event) (c : Ctx) :
    segSetsLE1 0 (handler ev c).2 = true := by
  unfold handler
  split
  · rfl
  · split
    · simpa using segSets_initAppend c [] rfl
    · split
      · exact segSets_initAppend c _ (healthcheckRoute_segSets c)
      · cases ht : tenantFromClaims ev.clinicId with
        | none => simpa using segSets_initAppend c [] rfl
        | some ts =>
          have h := dispatch_segSets ev c ts
          cases hd : dispatch ev c ts with
          | early r evs =>
            rw [hd] at h
            simpa [hd, outEvs] using segSets_initAppend c _ h
          | fall r =>
            obtain ⟨s, b, evs⟩ := r
            rw [hd] at h
            simpa [hd, outEvs] using segSets_initAppend c _ h

theorem handler_setsCanon_aux (ev : Event) (c : Ctx) (ts : String)
    (ht : tenantFromClaims ev.clinicId = some ts) :
    setsCanonical ts (handler ev c).2 = true := by
  unfold handler
  split
  · rfl
  · split
    · exact setsCanonical_of_noSets ts _ (noSets_poolInit c)
    · split
      · exact setsCanonical_of_noSets ts _
          (noSets_append _ _ (noSets_poolInit c) (healthcheckRoute_noSets c))
      · rw [ht]
        have h := dispatch_sets ev c ts
        cases hd : dispatch ev c ts with
        | early r evs =>
          rw [hd] at h
          simpa [hd, outEvs] using setsCanonical_append ts _ _
            (setsCanonical_of_noSets ts _ (noSets_poolInit c)) h
        | fall r =>
          obtain ⟨s, b, evs⟩ := r
          rw [hd] at h
          simpa [hd, outEvs] using setsCanonical_append ts _ _
            (setsCanonical_of_noSets ts _ (noSets_poolInit c)) h

theorem handler_noSets_aux (ev : Event) (c : Ctx)
    (ht : tenantFromClaims ev.clinicId = none) :
    noSets (handler ev c).2 = true := by
  unfold handler
  split
  · rfl
  · split
    · exact noSets_poolInit c
    · split
      · exact noSets_append _ _ (noSets_poolInit c) (healthcheckRoute_noSets c)
      · rw [ht]
        exact noSets_poolInit c

theorem jvalHasMessage_msgObj (m : String) : jvalHasMessage (msgObj m) = true := rfl

theorem jvalHasMessage_withErrMsg (m : String) (e : QErr) :
    jvalHasMessage (withErrMsg m e) = true := rfl

theorem jvalHasMessage_withErrDetail (m : String) (e : QErr) :
    jvalHasMessage (withErrDetail m e) = true := rfl

theorem msg_classifyGetPatients (ts : String) (e : QErr) :
    jvalHasMessage (classifyGetPatients ts e).2 = true := by
  unfold classifyGetPatients
  repeat' split
  all_goals rfl

theorem msg_classifyPostPatients (ts : String) (e : QErr) :
    jvalHasMessage (classifyPostPatients ts e).2 = true := by
  unfold classifyPostPatients
  repeat' split
  all_goals rfl

theorem msg_classifyPutPatients (ts pid : String) (e : QErr) :
    jvalHasMessage (classifyPutPatients ts pid e).2 = true := by
  unfold classifyPutPatients
  repeat' split
  all_goals rfl

theorem msg_classifyDeletePatients (ts pid : String) (e : QErr) :
    jvalHasMessage (classifyDeletePatients ts pid e).2 = true := by
  unfold classifyDeletePatients
  repeat' split
  all_goals rfl

theorem msg_classifyQueue (ts : String) (e : QErr) :
    jvalHasMessage (classifyQueue ts e).2 = true := by
  unfold classifyQueue
  repeat' split
  all_goals rfl

theorem msg_classifySoapPost (ts : String) (v : JVal) (e : QErr) :
    jvalHasMessage (classifySoapPost ts v e).2 = true := by
  unfold classifySoapPost
  repeat' split
  all_goals rfl

theorem msg_classifySoapList (ts : String) (filt : Option String) (e : QErr) :
    jvalHasMessage (classifySoapList ts filt e).2 = true := by
  unfold classifySoapList
  repeat' split
  all_goals rfl

theorem msg_classifySoapGet (ts nid : String) (e : QErr) :
    jvalHasMessage (classifySoapGet ts nid e).2 = true := by
  unfold classifySoapGet
  repeat' split
  all_goals rfl

theorem msg_classifyPutSoap (ts nid : String) (e : QErr) :
    jvalHasMessage (classifyPutSoap ts nid e).2 = true := by
  unfold classifyPutSoap
  repeat' split
  all_goals rfl

theorem runQuery_msgAll (c : Ctx) (ts sql : String) (ps : List JVal)
    (f : Nat → List JVal → Nat × JVal) (g : QErr → Nat × JVal)
    (hf : ∀ n rows, jvalHasMessage (f n rows).2 = true)
    (hg : ∀ e, jvalHasMessage (g e).2 = true) :
    jvalHasMessage (runQuery c ts sql ps f g).2.1 = true := by
  unfold runQuery runCtx setTenantSearchPath
  by_cases hc : c.connOk = false
  · simpa [hc] using hg c.connErr
  · by_cases hv : isValidSchemaName ts = false
    · simpa [hc, hv] using hg invalidTenantErr
    · cases hr : c.setPathRes with
      | err e => simpa [hc, hv, hr] using hg e
      | ok n rows =>
        cases hm : c.mainRes with
        | err e => simpa [hc, hv, hr, hm] using hg e
        | ok n2 rows2 => simpa [hc, hv, hr, hm] using hf n2 rows2

theorem getPatientsRoute_msg (c : Ctx) (ts : String) :
    400 ≤ (getPatientsRoute c ts).1 →
      jvalHasMessage (getPatientsRoute c ts).2.1 = true := by
  unfold getPatientsRoute
  exact runQuery_msg c ts _ _ _ _
    (fun n rows h => by simp at h)
    (fun e _ => msg_classifyGetPatients ts e)

theorem queueListRoute_msg (c : Ctx) (ts : String) :
    400 ≤ (queueListRoute c ts).1 →
      jvalHasMessage (queueListRoute c ts).2.1 = true := by
  unfold queueListRoute
  exact runQuery_msg c ts _ _ _ _
    (fun n rows h => by simp at h)
    (fun e _ => msg_classifyQueue ts e)

theorem postPatientsBody_msg (v : JVal) (c : Ctx) (ts : String) :
    jvalHasMessage (postPatientsBody v c ts).2.1 = true := by
  unfold postPatientsBody
  split
  · exact msg_classifyPostPatients ts nullReadErr
  · split
    · rfl
    · apply runQuery_msgAll
      · intro n rows
        cases rows with
        | nil => exact msg_classifyPostPatients ts (noRowAfterInsertErr "patient")
        | cons r rest => rfl
      · intro e
        exact msg_classifyPostPatients ts e

theorem postPatientsRoute_msg (ev : Event) (c : Ctx) (ts : String) :
    jvalHasMessage (postPatientsRoute ev c ts).2.1 = true := by
  obtain ⟨m, p, b, cid, pid, qp⟩ := ev
  cases b with
  | malformed => rfl
  | absent => exact postPatientsBody_msg ..
  | val v => exact postPatientsBody_msg ..

theorem putPatientBody_msg (v : JVal) (c : Ctx) (ts pid : String) :
    jvalHasMessage (putPatientBody v c ts pid).2.1 = true := by
  unfold putPatientBody runCtx setTenantSearchPath
  cases hk : jsKeysLen v with
  | none => exact msg_classifyPutPatients ts pid nullKeysErr
  | some k =>
    cases k with
    | zero => rfl
    | succ k2 =>
      by_cases hc : c.connOk = false
      · simpa [hc] using msg_classifyPutPatients ts pid c.connErr
      · by_cases hv : isValidSchemaName ts = false
        · simpa [hc, hv] using msg_classifyPutPatients ts pid invalidTenantErr
        · cases hr : c.setPathRes with
          | err e => simpa [hc, hv, hr] using msg_classifyPutPatients ts pid e
          | ok n rows =>
            cases hf : putPatientFields v with
            | nil => simp [hc, hv, hr, hf, jvalHasMessage, msgObj]
            | cons f fs =>
              cases hm : c.mainRes with
              | err e => simpa [hc, hv, hr, hm, hf] using msg_classifyPutPatients ts pid e
              | ok n2 rows2 =>
                by_cases hn : 0 < n2 <;>
                  simp [hc, hv, hr, hm, hf, hn, jvalHasMessage, msgObj]

theorem putPatientRoute_msg (ev : Event) (c : Ctx) (ts : String) :
    jvalHasMessage (putPatientRoute ev c ts).2.1 = true := by
  obtain ⟨m, p, b, cid, pid, qp⟩ := ev
  unfold putPatientRoute
  split
  · rfl
  · cases b with
    | malformed => exact msg_classifyPutPatients ..
    | absent => exact putPatientBody_msg ..
    | val v => exact putPatientBody_msg ..

theorem deletePatientRoute_msg (ev : Event) (c : Ctx) (ts : String) :
    jvalHasMessage (deletePatientRoute ev c ts).2.1 = true := by
  unfold deletePatientRoute
  split
  · rfl
  · apply runQuery_msgAll
    · intro n rows
      by_cases hn : 0 < n <;> simp [hn, jvalHasMessage, msgObj]
    · intro e
      exact msg_classifyDeletePatients ..

theorem soapListRoute_msg (ev : Event) (c : Ctx) (ts : String) :
    jvalHasMessage (soapListRoute ev c ts).2.1 = true := by
  unfold soapListRoute
  apply runQuery_msgAll
  · intro n rows
    rfl
  · intro e
    exact msg_classifySoapList ..

theorem getSoapByIdRoute_msg (ev : Event) (c : Ctx) (ts : String) :
    jvalHasMessage (getSoapByIdRoute ev c ts).2.1 = true := by
  unfold getSoapByIdRoute
  split
  · rfl
  · apply runQuery_msgAll
    · intro n rows
      cases rows with
      | nil => rfl
      | cons r rest => rfl
    · intro e
      exact msg_classifySoapGet ..

theorem putSoapBody_msg (v : JVal) (c : Ctx) (ts nid : String) :
    jvalHasMessage (putSoapBody v c ts nid).2.1 = true := by
  unfold putSoapBody runCtx setTenantSearchPath
  cases hk : jsKeysLen v with
  | none => exact msg_classifyPutSoap ts nid nullKeysErr
  | some k =>
    cases k with
    | zero => rfl
    | succ k2 =>
      by_cases hc : c.connOk = false
      · simpa [hc] using msg_classifyPutSoap ts nid c.connErr
      · by_cases hv : isValidSchemaName ts = false
        · simpa [hc, hv] using msg_classifyPutSoap ts nid invalidTenantErr
        · cases hr : c.setPathRes with
          | err e => simpa [hc, hv, hr] using msg_classifyPutSoap ts nid e
          | ok n rows =>
            cases hf : putSoapFields v with
            | nil => simp [hc, hv, hr, hf, jvalHasMessage, msgObj]
            | cons f fs =>
              cases hm : c.mainRes with
              | err e => simpa [hc, hv, hr, hm, hf] using msg_classifyPutSoap ts nid e
              | ok n2 rows2 =>
                by_cases hn : 0 < n2 <;>
                  simp [hc, hv, hr, hm, hf, hn, jvalHasMessage, msgObj]

theorem putSoapRoute_msg (ev : Event) (c : Ctx) (ts : String) :
    jvalHasMessage (putSoapRoute ev c ts).2.1 = true := by
  obtain ⟨m, p, b, cid, pid, qp⟩ := ev
  unfold putSoapRoute
  split
  · rfl
  · cases b with
    | malformed => rfl
    | absent => exact putSoapBody_msg ..
    | val v => exact putSoapBody_msg ..

theorem corsOk_base (co : Option String) (s : Nat) (b : RBody) :
    corsOk co ⟨s, baseHeaders co, b⟩ = true := by
  simp [corsOk, baseHeaders, List.lookup]

theorem corsOk_options (co : Option String) (s : Nat) (b : RBody) :
    corsOk co ⟨s, optionsHeaders co, b⟩ = true := by
  simp [corsOk, optionsHeaders, List.lookup]

theorem corsOk_final (co : Option String) (s : Nat) (b : RBody) :
    corsOk co ⟨s, finalHeaders co, b⟩ = true := by
  rw [finalHeaders_eq_base]
  exact corsOk_base co s b

/-- The uniform response-shape property: the response carries the fixed
CORS allow headers, and every failure response body is a JSON object with
a `message` key. -/
def respOK (co : Option String) (r : Resp) : Prop :=
  corsOk co r = true ∧ (400 ≤ r.status → hasMessageField r.body = true)

/-- The route-level version of `respOK`, before the fall-through results
are wrapped with the merged headers. -/
def routeOutOK (co : Option String) : RouteOut → Prop
  | RouteOut.early r _ => respOK co r
  | RouteOut.fall t => 400 ≤ t.1 → jvalHasMessage t.2.1 = true

theorem postSoapBodyVal_ok (v : JVal) (c : Ctx) (ts : String) :
    routeOutOK c.corsOrigin (postSoapBodyVal v c ts) := by
  unfold postSoapBodyVal
  split
  · exact ⟨corsOk_base .., fun _ => rfl⟩
  · split
    · exact ⟨corsOk_base .., fun _ => rfl⟩
    · intro h
      apply runQuery_msgAll
      · intro n rows
        cases rows with
        | nil => exact msg_classifySoapPost ..
        | cons r rest => rfl
      · intro e
        exact msg_classifySoapPost ..

theorem postSoapnotesRoute_ok (ev : Event) (c : Ctx) (ts : String) :
    routeOutOK c.corsOrigin (postSoapnotesRoute ev c ts) := by
  obtain ⟨m, p, b, cid, pid, qp⟩ := ev
  cases b with
  | absent => exact ⟨corsOk_base .., fun _ => rfl⟩
  | malformed => exact ⟨corsOk_base .., fun _ => rfl⟩
  | val v => exact postSoapBodyVal_ok ..

theorem dispatch_ok (ev : Event) (c : Ctx) (ts : String) :
    routeOutOK c.corsOrigin (dispatch ev c ts) := by
  unfold dispatch
  split
  · exact getPatientsRoute_msg c ts
  · split
    · exact fun _ => postPatientsRoute_msg ..
    · split
      · exact fun _ => putPatientRoute_msg ..
      · split
        · exact fun _ => deletePatientRoute_msg ..
        · split
          · exact queueListRoute_msg c ts
          · split
            · exact postSoapnotesRoute_ok ..
            · split
              · exact fun _ => soapListRoute_msg ..
              · split
                · exact fun _ => getSoapByIdRoute_msg ..
                · split
                  · exact fun _ => putSoapRoute_msg ..
                  · split
                    · exact queueListRoute_msg c ts
                    · exact fun _ => rfl

theorem handler_respOK_aux (ev : Event) (c : Ctx) :
    respOK c.corsOrigin (handler ev c).1 := by
  unfold handler
  split
  · exact ⟨corsOk_options .., fun h => by simp at h⟩
  · split
    · exact ⟨corsOk_base .., fun _ => rfl⟩
    · split
      · unfold healthcheckRoute
        exact ⟨corsOk_base .., fun h => by simp at h⟩
      · cases ht : tenantFromClaims ev.clinicId with
        | none => exact ⟨corsOk_base .., fun _ => rfl⟩
        | some ts =>
          have h := dispatch_ok ev c ts
          cases hd : dispatch ev c ts with
          | early r evs =>
            rw [hd] at h
            simpa [hd, routeOutOK] using h
          | fall t =>
            obtain ⟨s, b, evs⟩ := t
            rw [hd] at h
            simp only [hd]
            exact ⟨corsOk_final .., h⟩

instance : IsTotal (QueueRec × PatientRec) queueLE :=
  ⟨fun a b => Nat.le_total a.1.queue_timestamp b.1.queue_timestamp⟩

instance : IsTrans (QueueRec × PatientRec) queueLE :=
  ⟨fun _ _ _ hab hbc => Nat.le_trans hab hbc⟩

theorem waitingQueuePairs_sorted (st : DBState) :
    List.Pairwise queueLE (waitingQueuePairs st) :=
  List.sorted_insertionSort queueLE (joinRows st)

theorem mem_joinRows (st : DBState) (x : QueueRec × PatientRec) :
    x ∈ joinRows st ↔
      x.1 ∈ st.queue ∧ x.2 ∈ st.patients ∧ x.2.patient_id = x.1.patient_id := by
  obtain ⟨q, p⟩ := x
  simp only [joinRows, List.mem_flatMap, List.mem_map, List.mem_filter]
  constructor
  · rintro ⟨q2, hq2, p2, ⟨hp2, hpid⟩, heq⟩
    obtain ⟨h1, h2⟩ := Prod.mk.injEq .. ▸ heq
    cases heq
    exact ⟨hq2, hp2, by simpa using hpid⟩
  · rintro ⟨hq, hp, hpid⟩
    exact ⟨q, hq, p, ⟨hp, by simpa using hpid⟩, rfl⟩

theorem mem_waitingQueuePairs (st : DBState) (x : QueueRec × PatientRec) :
    x ∈ waitingQueuePairs st ↔
      x.1 ∈ st.queue ∧ x.2 ∈ st.patients ∧ x.2.patient_id = x.1.patient_id := by
  rw [waitingQueuePairs, List.mem_insertionSort, mem_joinRows]

/-- A benign database error value for oracle slots that are not reached. -/
def noErr : QErr := ⟨none, "", none, none⟩

/-- A warm-start context in which every database round trip succeeds and
returns nothing. -/
def ctxWarm : Ctx := ⟨false, true, "", true, noErr, QRes.ok 0 [], QRes.ok 0 [], none, ""⟩

/-- A cold-start context whose pool initialization succeeds. -/
def ctxCold : Ctx := ⟨true, true, "", true, noErr, QRes.ok 0 [], QRes.ok 0 [], none, ""⟩

/-- POST /queue request with a valid tenant claim. -/
def evPostQueue : Event :=
  ⟨"POST", "/queue", BodyIn.val (JVal.obj [("patientId", JVal.str "p1")]),
   some (JVal.str "clinic_test"), none, none⟩

/-- DELETE /queue/{id} request with a valid tenant claim. -/
def evDelQueue : Event :=
  ⟨"DELETE", "/queue/abc", BodyIn.absent, some (JVal.str "clinic_test"),
   some "abc", none⟩

/-- GET /patients request whose claims carry no tenant identifier. -/
def evNoTenant : Event := ⟨"GET", "/patients", BodyIn.absent, none, none, none⟩

theorem noInserts_poolInit (c : Ctx) : noInserts (poolInitEvs c) = true := by
  unfold poolInitEvs
  by_cases h1 : c.coldStart = true <;> by_cases h2 : c.initOk = true <;>
    simp [h1, h2, noInserts, isInsertEv] <;> decide

theorem noInserts_append (a b : List Ev) (ha : noInserts a = true)
    (hb : noInserts b = true) : noInserts (a ++ b) = true := by
  simp only [noInserts, List.all_append] at *
  simp [ha, hb]

/-- C2: the route table promises `POST /queue` (enqueue, 201) and
`DELETE /queue/{id}` (remove, 200/404), and the repository's API gateway
configuration and frontend both use them, but the handler has no branch
for either: both fall through to the unknown-path branch and answer
404 Not Found without touching the database. -/
theorem C2_queue_routes_unhandled :
    (handler evPostQueue ctxWarm).1.status = 404 ∧
    (handler evPostQueue ctxWarm).1.body =
      RBody.json (JVal.obj [("message", JVal.str "Not Found"),
                            ("requestedPath", JVal.str "/queue")]) ∧
    (handler evPostQueue ctxWarm).2 = [] ∧
    (handler evDelQueue ctxWarm).1.status = 404 ∧
    (handler evDelQueue ctxWarm).1.body =
      RBody.json (JVal.obj [("message", JVal.str "Not Found"),
                            ("requestedPath", JVal.str "/queue/abc")]) ∧
    (handler evDelQueue ctxWarm).2 = [] :=
  ⟨rfl, rfl, rfl, rfl, rfl, rfl⟩

/-- C3 counterexample: on a cold start, the handler initializes the
connection pool — borrowing a connection and running its `SELECT NOW()`
probe — before the tenant-claim check, so a request lacking a tenant
identifier is rejected with 400 only after database access happened. -/
theorem C3_counterexample :
    (handler evNoTenant ctxCold).1.status = 400 ∧
    (handler evNoTenant ctxCold).2 =
      [Ev.connect true, Ev.query "SELECT NOW()" [] true, Ev.release] :=
  ⟨rfl, rfl⟩

/-- C3 (amended): when the pool is already initialized (warm process), a
request to any protected route (not the OPTIONS preflight, not
GET /healthcheck) whose claims lack a usable tenant identifier is answered
with status 400 and a message body, and the handler performs no database
access at all; on a cold start, the pool-initialization connectivity probe
runs before this check. -/
theorem C3_warm_reject_before_db (ev : Event) (c : Ctx)
    (hw : c.coldStart = false)
    (hm : ev.httpMethod ≠ "OPTIONS")
    (hh : ¬(ev.path = "/healthcheck" ∧ ev.httpMethod = "GET"))
    (ht : tenantFromClaims ev.clinicId = none) :
    (handler ev c).1.status = 400 ∧
    hasMessageField (handler ev c).1.body = true ∧
    (handler ev c).2 = [] := by
  have h1 : (ev.httpMethod == "OPTIONS") = false := by
    simpa using hm
  have hh2 : (ev.path == "/healthcheck" && ev.httpMethod == "GET") = false := by
    rcases Decidable.em (ev.path = "/healthcheck") with h | h
    · have h3 : ev.httpMethod ≠ "GET" := fun hg => hh ⟨h, hg⟩
      simp [h3]
    · simp [h]
  unfold handler
  simp [h1, hw, hh2, ht, poolInitEvs, hasMessageField, jvalHasMessage, msgObj]

theorem C3_warm_reject_before_db_witness :
    (handler evNoTenant ctxWarm).1.status = 400 ∧
    hasMessageField (handler evNoTenant ctxWarm).1.body = true ∧
    (handler evNoTenant ctxWarm).2 = [] :=
  C3_warm_reject_before_db evNoTenant ctxWarm rfl (by decide) (by decide) rfl

/-- A patient row as the database would return it. -/
def rowJane : JVal :=
  JVal.obj [("patient_id", JVal.str "p1"), ("first_name", JVal.str "Jane"),
            ("last_name", JVal.str "Doe")]

/-- A warm context whose main statement returns one patient row. -/
def ctxRows : Ctx := ⟨false, true, "", true, noErr, QRes.ok 0 [], QRes.ok 1 [rowJane], none, ""⟩

/-- GET /patients request with a valid tenant claim. -/
def evGetPatients : Event :=
  ⟨"GET", "/patients", BodyIn.absent, some (JVal.str "clinic_test"), none, none⟩

/-- C4 counterexample: a successful GET /patients returns the bare row
array as its JSON body — there is no `message` field, so not every
response carries a JSON body with a `message` field. -/
theorem C4_counterexample :
    (handler evGetPatients ctxRows).1.status = 200 ∧
    (handler evGetPatients ctxRows).1.body = RBody.json (JVal.arr [rowJane]) ∧
    hasMessageField (handler evGetPatients ctxRows).1.body = false :=
  ⟨rfl, rfl, rfl⟩

/-- C4 (amended): every response of the handler carries the same three
CORS allow headers (origin from the deployment's configured value,
fixed allow-methods and allow-headers lists), and every failure response
(status 400 and above) carries a JSON body with a `message` field; the
successful listing endpoints return a bare JSON array, the healthcheck an
object without `message`, and the preflight an empty raw body. -/
theorem C4_cors_and_failure_message (ev : Event) (c : Ctx) :
    corsOk c.corsOrigin (handler ev c).1 = true ∧
    (400 ≤ (handler ev c).1.status → hasMessageField (handler ev c).1.body = true) :=
  handler_respOK_aux ev c

theorem C4_cors_and_failure_message_witness :
    corsOk ctxWarm.corsOrigin (handler evPostQueue ctxWarm).1 = true ∧
    (400 ≤ (handler evPostQueue ctxWarm).1.status →
      hasMessageField (handler evPostQueue ctxWarm).1.body = true) :=
  C4_cors_and_failure_message evPostQueue ctxWarm

/-- C8: in every run of the handler, whatever the route, body, tenant and
database outcomes, the connection-event trace is balanced: each successful
borrow is released exactly once before the next borrow, statements run
only on a borrowed connection, and a failed borrow releases nothing. -/
theorem C8_connection_released_once (ev : Event) (c : Ctx) :
    balanced (handler ev c).2 = true :=
  handler_balanced_aux ev c

/-- C9: whenever the healthcheck route is reached (the pool exists or its
initialization succeeds), the response status is 200 regardless of the
connectivity probe's outcome; a failed probe is reported only through
`database_status: "Unavailable"` in the body. -/
theorem C9_healthcheck_always_200 (c : Ctx) (cid : Option JVal) (pid qp : Option String)
    (h : c.coldStart = false ∨ c.initOk = true) :
    (handler ⟨"GET", "/healthcheck", BodyIn.absent, cid, pid, qp⟩ c).1.status = 200 ∧
    (handler ⟨"GET", "/healthcheck", BodyIn.absent, cid, pid, qp⟩ c).1.body =
      RBody.json (JVal.obj
        [("status", JVal.str "OK"),
         ("database_status",
           JVal.str (if (c.connOk && qOk c.mainRes) = true then "OK" else "Unavailable")),
         ("timestamp", JVal.str c.now)]) := by
  have h2 : (c.coldStart && !c.initOk) = false := by
    rcases h with h | h <;> simp [h]
  unfold handler healthcheckRoute
  simp [h2]

/-- A context whose borrow fails (the pool cannot reach the database). -/
def ctxConnFail : Ctx :=
  ⟨false, true, "", false, ⟨none, "connect ECONNREFUSED", none, none⟩,
   QRes.ok 0 [], QRes.ok 0 [], none, ""⟩

theorem C9_healthcheck_always_200_witness :
    (handler ⟨"GET", "/healthcheck", BodyIn.absent, none, none, none⟩ ctxConnFail).1.status = 200 ∧
    (handler ⟨"GET", "/healthcheck", BodyIn.absent, none, none, none⟩ ctxConnFail).1.body =
      RBody.json (JVal.obj
        [("status", JVal.str "OK"),
         ("database_status",
           JVal.str (if (ctxConnFail.connOk && qOk ctxConnFail.mainRes) = true then "OK" else "Unavailable")),
         ("timestamp", JVal.str ctxConnFail.now)]) :=
  C9_healthcheck_always_200 ctxConnFail none none none (Or.inl rfl)

/-- C1: an identifier failing the allow-list pattern makes
`setTenantSearchPath` throw the `Invalid tenant identifier.` error before
issuing anything on the connection; a matching identifier makes it issue
exactly the one directive scoping the connection to that tenant's schema
plus `public`; and in every handler run each borrowed connection carries
at most one search-path directive, every such directive is exactly the
canonical one for the request's tenant, and requests without a tenant
issue none — no other code path mutates a connection's search path. -/
theorem C1_tenant_search_path :
    (∀ (s : String) (r : QRes), isValidSchemaName s = false →
      setTenantSearchPath s r = (Except.error invalidTenantErr, []) ∧
      invalidTenantErr.msg = "Invalid tenant identifier.") ∧
    (∀ (s : String) (r : QRes), isValidSchemaName s = true →
      (setTenantSearchPath s r).2 = [mkSetQuery s] ∧
      mkSetQuery s = "SET search_path TO " ++ escapeIdentifier s ++ ", public;") ∧
    (∀ (ev : Event) (c : Ctx), segSetsLE1 0 (handler ev c).2 = true) ∧
    (∀ (ev : Event) (c : Ctx) (ts : String),
      tenantFromClaims ev.clinicId = some ts →
      setsCanonical ts (handler ev c).2 = true) ∧
    (∀ (ev : Event) (c : Ctx), tenantFromClaims ev.clinicId = none →
      noSets (handler ev c).2 = true) := by
  refine ⟨?_, ?_, ?_, ?_, ?_⟩
  · intro s r h
    constructor
    · unfold setTenantSearchPath
      simp [h]
    · rfl
  · intro s r h
    constructor
    · unfold setTenantSearchPath
      cases r <;> simp [h]
    · rfl
  · exact handler_segSets_aux
  · exact handler_setsCanon_aux
  · exact handler_noSets_aux

theorem C1_tenant_search_path_witness :
    (setTenantSearchPath "bad;name--" (QRes.ok 0 []) = (Except.error invalidTenantErr, []) ∧
      invalidTenantErr.msg = "Invalid tenant identifier.") ∧
    ((setTenantSearchPath "clinic_test" (QRes.ok 0 [])).2 = [mkSetQuery "clinic_test"] ∧
      mkSetQuery "clinic_test" =
        "SET search_path TO " ++ escapeIdentifier "clinic_test" ++ ", public;") ∧
    segSetsLE1 0 (handler evGetPatients ctxRows).2 = true ∧
    setsCanonical "clinic_test" (handler evGetPatients ctxRows).2 = true ∧
    noSets (handler evNoTenant ctxWarm).2 = true :=
  ⟨C1_tenant_search_path.1 "bad;name--" (QRes.ok 0 []) (by decide),
   C1_tenant_search_path.2.1 "clinic_test" (QRes.ok 0 []) (by decide),
   C1_tenant_search_path.2.2.1 evGetPatients ctxRows,
   C1_tenant_search_path.2.2.2.1 evGetPatients ctxRows "clinic_test" rfl,
   C1_tenant_search_path.2.2.2.2 evNoTenant ctxWarm rfl⟩

/-- POST /patients whose body is the JSON value `null`. -/
def evPostNull : Event :=
  ⟨"POST", "/patients", BodyIn.val JVal.null, some (JVal.str "clinic_test"), none, none⟩

/-- C5 counterexample: a POST /patients body of JSON `null` is missing all
three required fields, yet the handler answers 500 (the validation's
property access throws a TypeError that the uncoded-error branch maps to
500), not the claimed 400 — though still without issuing any INSERT. -/
theorem C5_counterexample :
    (handler evPostNull ctxWarm).1.status = 500 ∧
    noInserts (handler evPostNull ctxWarm).2 = true :=
  ⟨rfl, rfl⟩

/-- C5 (amended): a POST /patients request whose parsed body is missing
any of first_name, last_name or date_of_birth never issues an INSERT; if
the body is not JSON `null` the handler returns 400 with the bad-request
message (before borrowing any connection), while a JSON `null` body
returns 500 because the field access itself throws. -/
theorem C5_missing_required_no_insert :
    (∀ (c : Ctx) (v : JVal) (cid : Option JVal) (pid qp : Option String),
      (!truthyField v "first_name" || !truthyField v "last_name" ||
        !truthyField v "date_of_birth") = true →
      noInserts (handler ⟨"POST", "/patients", BodyIn.val v, cid, pid, qp⟩ c).2 = true) ∧
    (∀ (c : Ctx) (v : JVal) (cid : Option JVal) (pid qp : Option String) (ts : String),
      (c.coldStart && !c.initOk) = false →
      tenantFromClaims cid = some ts →
      isNullJV v = false →
      (!truthyField v "first_name" || !truthyField v "last_name" ||
        !truthyField v "date_of_birth") = true →
      (handler ⟨"POST", "/patients", BodyIn.val v, cid, pid, qp⟩ c).1.status = 400 ∧
      (handler ⟨"POST", "/patients", BodyIn.val v, cid, pid, qp⟩ c).1.body =
        RBody.json (msgObj "Bad Request: Missing required patient fields (first_name, last_name, date_of_birth).") ∧
      (handler ⟨"POST", "/patients", BodyIn.val v, cid, pid, qp⟩ c).2 = poolInitEvs c) ∧
    (∀ (c : Ctx) (cid : Option JVal) (pid qp : Option String) (ts : String),
      (c.coldStart && !c.initOk) = false →
      tenantFromClaims cid = some ts →
      (handler ⟨"POST", "/patients", BodyIn.val JVal.null, cid, pid, qp⟩ c).1.status = 500) := by
  refine ⟨?_, ?_, ?_⟩
  · intro c v cid pid qp hmiss
    unfold handler
    by_cases hcold : (c.coldStart && !c.initOk) = true
    · simpa [hcold] using noInserts_poolInit c
    · cases ht : tenantFromClaims cid with
      | none =>
        simpa [hcold, ht] using noInserts_poolInit c
      | some ts =>
        by_cases hnull : isNullJV v = true
        · simpa [hcold, ht, dispatch, postPatientsRoute, postPatientsBody, hnull]
            using noInserts_poolInit c
        · simpa [hcold, ht, dispatch, postPatientsRoute, postPatientsBody, hnull, hmiss]
            using noInserts_poolInit c
  · intro c v cid pid qp ts hcold ht hnull hmiss
    unfold handler
    simp [hcold, ht, dispatch, postPatientsRoute, postPatientsBody, hnull, hmiss]
  · intro c cid pid qp ts hcold ht
    unfold handler
    simp [hcold, ht, dispatch, postPatientsRoute, postPatientsBody, isNullJV,
      classifyPostPatients, nullReadErr]

theorem C5_missing_required_no_insert_witness :
    noInserts (handler ⟨"POST", "/patients",
      BodyIn.val (JVal.obj [("first_name", JVal.str "Jane")]),
      some (JVal.str "clinic_test"), none, none⟩ ctxWarm).2 = true ∧
    (handler ⟨"POST", "/patients",
      BodyIn.val (JVal.obj [("first_name", JVal.str "Jane")]),
      some (JVal.str "clinic_test"), none, none⟩ ctxWarm).1.status = 400 ∧
    (handler evPostNull ctxWarm).1.status = 500 :=
  ⟨C5_missing_required_no_insert.1 ctxWarm (JVal.obj [("first_name", JVal.str "Jane")])
      (some (JVal.str "clinic_test")) none none (by decide),
   (C5_missing_required_no_insert.2.1 ctxWarm (JVal.obj [("first_name", JVal.str "Jane")])
      (some (JVal.str "clinic_test")) none none "clinic_test" rfl rfl rfl (by decide)).1,
   C5_missing_required_no_insert.2.2 ctxWarm
      (some (JVal.str "clinic_test")) none none "clinic_test" rfl rfl⟩

/-- A POST /patients body carrying only the three required fields. -/
def bodyMinimal : JVal :=
  JVal.obj [("first_name", JVal.str "Jane"), ("last_name", JVal.str "Doe"),
            ("date_of_birth", JVal.str "1990-01-01")]

/-- POST /patients request with only the required fields. -/
def evPostMinimal : Event :=
  ⟨"POST", "/patients", BodyIn.val bodyMinimal, some (JVal.str "clinic_test"), none, none⟩

/-- C6 counterexample: with every optional field absent, the issued INSERT
binds `is_medicare_eligible` (parameter 15) to `false` and `custom_data`
(parameter 16) to the string `"{}"` — neither is NULL, so not every unset
optional column is nulled. -/
theorem C6_counterexample :
    (handler evPostMinimal ctxRows).2 =
      [Ev.connect true, Ev.query (mkSetQuery "clinic_test") [] true,
       Ev.query patientsInsertSQL (patientInsertValues bodyMinimal) true, Ev.release] ∧
    (patientInsertValues bodyMinimal).get? 14 = some (JVal.bool false) ∧
    (patientInsertValues bodyMinimal).get? 15 = some (JVal.str "\x7b\x7d") ∧
    JVal.bool false ≠ JVal.null ∧ JVal.str "\x7b\x7d" ≠ JVal.null :=
  ⟨rfl, rfl, rfl, fun h => JVal.noConfusion h, fun h => JVal.noConfusion h⟩

/-- C6 (amended): for a POST /patients with the required fields present,
the handler issues the sixteen-parameter INSERT; each of the eleven
optional demographic/contact fields that is absent is bound to NULL, but
an absent `is_medicare_eligible` is bound to `false` and an absent
`custom_data` to the serialized empty object, not NULL. -/
theorem C6_unset_optionals (c : Ctx) (v : JVal) (cid : Option JVal)
    (pid qp : Option String) (ts : String) (nr : Nat) (rr : List JVal)
    (ht : tenantFromClaims cid = some ts) (hv : isValidSchemaName ts = true)
    (hw : c.coldStart = false) (hc : c.connOk = true)
    (hr : c.setPathRes = QRes.ok nr rr)
    (hnull : isNullJV v = false)
    (hreq : (!truthyField v "first_name" || !truthyField v "last_name" ||
      !truthyField v "date_of_birth") = false) :
    (handler ⟨"POST", "/patients", BodyIn.val v, cid, pid, qp⟩ c).2 =
      [Ev.connect true, Ev.query (mkSetQuery ts) [] true,
       Ev.query patientsInsertSQL (patientInsertValues v) (qOk c.mainRes), Ev.release] ∧
    (getField v "middle_initial" = none → (patientInsertValues v).get? 3 = some JVal.null) ∧
    (getField v "preferred_name" = none → (patientInsertValues v).get? 4 = some JVal.null) ∧
    (getField v "gender" = none → (patientInsertValues v).get? 5 = some JVal.null) ∧
    (getField v "phone_number" = none → (patientInsertValues v).get? 6 = some JVal.null) ∧
    (getField v "email" = none → (patientInsertValues v).get? 7 = some JVal.null) ∧
    (getField v "address_line1" = none → (patientInsertValues v).get? 8 = some JVal.null) ∧
    (getField v "address_line2" = none → (patientInsertValues v).get? 9 = some JVal.null) ∧
    (getField v "city" = none → (patientInsertValues v).get? 10 = some JVal.null) ∧
    (getField v "state_province" = none → (patientInsertValues v).get? 11 = some JVal.null) ∧
    (getField v "postal_code" = none → (patientInsertValues v).get? 12 = some JVal.null) ∧
    (getField v "country" = none → (patientInsertValues v).get? 13 = some JVal.null) ∧
    (getField v "is_medicare_eligible" = none →
      (patientInsertValues v).get? 14 = some (JVal.bool false)) ∧
    (getField v "custom_data" = none →
      (patientInsertValues v).get? 15 = some (JVal.str (JVal.stringify (JVal.obj [])))) := by
  have hb : (c.coldStart && !c.initOk) = false := by simp [hw]
  refine ⟨?_, ?_, ?_, ?_, ?_, ?_, ?_, ?_, ?_, ?_, ?_, ?_, ?_, ?_⟩
  · unfold handler
    cases hm : c.mainRes with
    | err e =>
      simp [hb, hw, ht, dispatch, postPatientsRoute, postPatientsBody, hnull, hreq,
        runQuery, runCtx, setTenantSearchPath, hv, hc, hr, hm, poolInitEvs, qOk]
    | ok n2 rows2 =>
      cases rows2 with
      | nil =>
        simp [hb, hw, ht, dispatch, postPatientsRoute, postPatientsBody, hnull, hreq,
          runQuery, runCtx, setTenantSearchPath, hv, hc, hr, hm, poolInitEvs, qOk]
      | cons r rest =>
        simp [hb, hw, ht, dispatch, postPatientsRoute, postPatientsBody, hnull, hreq,
          runQuery, runCtx, setTenantSearchPath, hv, hc, hr, hm, poolInitEvs, qOk]
  all_goals
    intro h
    simp [patientInsertValues, orNullF, orFalseF, orEmptyObj, h]

theorem C6_unset_optionals_witness :
    ((handler evPostMinimal ctxRows).2 =
      [Ev.connect true, Ev.query (mkSetQuery "clinic_test") [] true,
       Ev.query patientsInsertSQL (patientInsertValues bodyMinimal) (qOk ctxRows.mainRes),
       Ev.release]) ∧
    (patientInsertValues bodyMinimal).get? 3 = some JVal.null ∧
    (patientInsertValues bodyMinimal).get? 14 = some (JVal.bool false) ∧
    (patientInsertValues bodyMinimal).get? 15 =
      some (JVal.str (JVal.stringify (JVal.obj []))) := by
  have h := C6_unset_optionals ctxRows bodyMinimal (some (JVal.str "clinic_test"))
    none none "clinic_test" 0 [] rfl (by decide) rfl rfl rfl rfl (by decide)
  exact ⟨h.1, h.2.1 rfl, h.2.2.2.2.2.2.2.2.2.2.2.2.1 rfl, h.2.2.2.2.2.2.2.2.2.2.2.2.2 rfl⟩

/-- `Array.isArray`. -/
def jsIsArr : JVal → Bool
  | JVal.arr _ => true
  | _ => false

/-- C10: a POST /soapnotes issues the notes INSERT whose seventh and
eighth parameters are the sanitized `dx_codes` and `billing_codes`: a
nonempty array is bound as its JSON serialization, while an empty array, a
non-array value, or an absent field is bound as NULL. -/
theorem C10_soap_codes_sanitization (c : Ctx) (v : JVal) (cid : Option JVal)
    (pid qp : Option String) (ts : String) (nr : Nat) (rr : List JVal)
    (ht : tenantFromClaims cid = some ts) (hv : isValidSchemaName ts = true)
    (hw : c.coldStart = false) (hc : c.connOk = true)
    (hr : c.setPathRes = QRes.ok nr rr)
    (hobj : jsIsObjectNotNull v = true)
    (hpid : truthyField v "patient_id" = true) :
    (handler ⟨"POST", "/soapnotes", BodyIn.val v, cid, pid, qp⟩ c).2 =
      [Ev.connect true, Ev.query (mkSetQuery ts) [] true,
       Ev.query notesInsertSQL (noteInsertValues v) (qOk c.mainRes), Ev.release] ∧
    (noteInsertValues v).get? 6 = some (codesVal (getField v "dx_codes")) ∧
    (noteInsertValues v).get? 7 = some (codesVal (getField v "billing_codes")) ∧
    (∀ x xs, getField v "dx_codes" = some (JVal.arr (x :: xs)) →
      codesVal (getField v "dx_codes") = JVal.str (JVal.stringify (JVal.arr (x :: xs)))) ∧
    (getField v "dx_codes" = none → codesVal (getField v "dx_codes") = JVal.null) ∧
    (getField v "dx_codes" = some (JVal.arr []) →
      codesVal (getField v "dx_codes") = JVal.null) ∧
    (∀ w, getField v "dx_codes" = some w → jsIsArr w = false →
      codesVal (getField v "dx_codes") = JVal.null) ∧
    (∀ x xs, getField v "billing_codes" = some (JVal.arr (x :: xs)) →
      codesVal (getField v "billing_codes") = JVal.str (JVal.stringify (JVal.arr (x :: xs)))) ∧
    (getField v "billing_codes" = none → codesVal (getField v "billing_codes") = JVal.null) ∧
    (getField v "billing_codes" = some (JVal.arr []) →
      codesVal (getField v "billing_codes") = JVal.null) ∧
    (∀ w, getField v "billing_codes" = some w → jsIsArr w = false →
      codesVal (getField v "billing_codes") = JVal.null) := by
  have hb : (c.coldStart && !c.initOk) = false := by simp [hw]
  refine ⟨?_, rfl, rfl, ?_, ?_, ?_, ?_, ?_, ?_, ?_, ?_⟩
  · unfold handler
    cases hm : c.mainRes with
    | err e =>
      simp [hb, hw, ht, dispatch, postSoapnotesRoute, postSoapBodyVal, hobj, hpid,
        runQuery, runCtx, setTenantSearchPath, hv, hc, hr, hm, poolInitEvs, qOk]
    | ok n2 rows2 =>
      cases rows2 with
      | nil =>
        simp [hb, hw, ht, dispatch, postSoapnotesRoute, postSoapBodyVal, hobj, hpid,
          runQuery, runCtx, setTenantSearchPath, hv, hc, hr, hm, poolInitEvs, qOk]
      | cons r rest =>
        simp [hb, hw, ht, dispatch, postSoapnotesRoute, postSoapBodyVal, hobj, hpid,
          runQuery, runCtx, setTenantSearchPath, hv, hc, hr, hm, poolInitEvs, qOk]
  · intro x xs h
    simp [codesVal, h]
  · intro h
    simp [codesVal, h]
  · intro h
    simp [codesVal, h]
  · intro w h hna
    rw [h]
    cases w <;> simp [codesVal] <;> simp [jsIsArr] at hna
  · intro x xs h
    simp [codesVal, h]
  · intro h
    simp [codesVal, h]
  · intro h
    simp [codesVal, h]
  · intro w h hna
    rw [h]
    cases w <;> simp [codesVal] <;> simp [jsIsArr] at hna

/-- A SOAP-note body with a nonempty dx list and an empty billing list. -/
def bodySoap : JVal :=
  JVal.obj [("patient_id", JVal.str "p1"),
            ("dx_codes", JVal.arr [JVal.str "M54.5"]),
            ("billing_codes", JVal.arr [])]

theorem C10_soap_codes_sanitization_witness :
    (handler ⟨"POST", "/soapnotes", BodyIn.val bodySoap,
        some (JVal.str "clinic_test"), none, none⟩ ctxRows).2 =
      [Ev.connect true, Ev.query (mkSetQuery "clinic_test") [] true,
       Ev.query notesInsertSQL (noteInsertValues bodySoap) (qOk ctxRows.mainRes),
       Ev.release] ∧
    (noteInsertValues bodySoap).get? 6 = some (codesVal (getField bodySoap "dx_codes")) ∧
    codesVal (getField bodySoap "dx_codes") =
      JVal.str (JVal.stringify (JVal.arr [JVal.str "M54.5"])) ∧
    codesVal (getField bodySoap "billing_codes") = JVal.null := by
  have h := C10_soap_codes_sanitization ctxRows bodySoap (some (JVal.str "clinic_test"))
    none none "clinic_test" 0 [] rfl (by decide) rfl rfl rfl rfl rfl
  exact ⟨h.1, h.2.1, h.2.2.2.1 (JVal.str "M54.5") [] rfl, h.2.2.2.2.2.2.2.2.2.1 rfl⟩

theorem queue_handler_eval (st : DBState) (co : Option String) (cid : Option JVal)
    (ts : String) (pid qp : Option String) (pa : String)
    (ht : tenantFromClaims cid = some ts) (hv : isValidSchemaName ts = true)
    (hp : pa = "/queue" ∨ pa = "/waiting-queue") :
    handler ⟨"GET", pa, BodyIn.absent, cid, pid, qp⟩ (ctxForQueue st co) =
      (⟨200, finalHeaders co, RBody.json (JVal.arr (waitingQueueRows st))⟩,
       [Ev.connect true, Ev.query (mkSetQuery ts) [] true,
        Ev.query waitingQueueSQL [] true, Ev.release]) := by
  rcases hp with h | h <;> subst h <;>
    simp [handler, dispatch, queueListRoute, runQuery, runCtx, setTenantSearchPath,
      ctxForQueue, ht, hv, poolInitEvs, qOk, strStarts, listStarts]

/-- C7: the queue listing (GET /queue and GET /waiting-queue) returns 200
with exactly the rows of the modelled listing statement — the join of the
waiting queue against patients, each row carrying the joined patient's
first and last name, ordered by enqueue timestamp ascending — and two
listings over the same database state return the same body. -/
theorem C7_queue_listing_join_ordered (st : DBState) (co co2 : Option String)
    (cid : Option JVal) (ts : String) (pid qp : Option String) (pa : String)
    (ht : tenantFromClaims cid = some ts) (hv : isValidSchemaName ts = true)
    (hp : pa = "/queue" ∨ pa = "/waiting-queue") :
    (handler ⟨"GET", pa, BodyIn.absent, cid, pid, qp⟩ (ctxForQueue st co)).1.status = 200 ∧
    (handler ⟨"GET", pa, BodyIn.absent, cid, pid, qp⟩ (ctxForQueue st co)).1.body =
      RBody.json (JVal.arr (waitingQueueRows st)) ∧
    (handler ⟨"GET", pa, BodyIn.absent, cid, pid, qp⟩ (ctxForQueue st co)).1.body =
      (handler ⟨"GET", pa, BodyIn.absent, cid, pid, qp⟩ (ctxForQueue st co2)).1.body ∧
    List.Pairwise queueLE (waitingQueuePairs st) ∧
    (∀ x ∈ waitingQueuePairs st,
      x.1 ∈ st.queue ∧ x.2 ∈ st.patients ∧ x.2.patient_id = x.1.patient_id) ∧
    (∀ q ∈ st.queue, ∀ p ∈ st.patients, p.patient_id = q.patient_id →
      (q, p) ∈ waitingQueuePairs st) ∧
    (∀ x ∈ waitingQueuePairs st,
      getField (queueRowJVal x.1 x.2) "first_name" = some (JVal.str x.2.first_name) ∧
      getField (queueRowJVal x.1 x.2) "last_name" = some (JVal.str x.2.last_name)) := by
  have h1 := queue_handler_eval st co cid ts pid qp pa ht hv hp
  have h2 := queue_handler_eval st co2 cid ts pid qp pa ht hv hp
  refine ⟨by rw [h1], by rw [h1], by rw [h1, h2], waitingQueuePairs_sorted st, ?_, ?_, ?_⟩
  · intro x hx
    exact (mem_waitingQueuePairs st x).mp hx
  · intro q hq p hp2 hpq
    exact (mem_waitingQueuePairs st (q, p)).mpr ⟨hq, hp2, hpq⟩
  · intro x hx
    exact ⟨rfl, rfl⟩

/-- A sample tenant database: two patients, two queue entries enqueued in
reverse timestamp order. -/
def stSample : DBState :=
  ⟨[⟨1, "Jane", "Doe"⟩, ⟨2, "John", "Roe"⟩],
   [⟨10, 2, 50, "waiting", ""⟩, ⟨11, 1, 20, "waiting", ""⟩]⟩

theorem C7_queue_listing_join_ordered_witness :
    (handler ⟨"GET", "/queue", BodyIn.absent, some (JVal.str "clinic_test"), none, none⟩
        (ctxForQueue stSample none)).1.status = 200 ∧
    (handler ⟨"GET", "/queue", BodyIn.absent, some (JVal.str "clinic_test"), none, none⟩
        (ctxForQueue stSample none)).1.body =
      RBody.json (JVal.arr (waitingQueueRows stSample)) ∧
    List.Pairwise queueLE (waitingQueuePairs stSample) ∧
    waitingQueuePairs stSample =
      [(⟨11, 1, 20, "waiting", ""⟩, ⟨1, "Jane", "Doe"⟩),
       (⟨10, 2, 50, "waiting", ""⟩, ⟨2, "John", "Roe"⟩)] := by
  have h := C7_queue_listing_join_ordered stSample none none
    (some (JVal.str "clinic_test")) "clinic_test" none none "/queue" rfl (by decide)
    (Or.inl rfl)
  exact ⟨h.1, h.2.1, h.2.2.2.1, by decide⟩

theorem C8_connection_released_once_witness :
    balanced (handler evGetPatients ctxRows).2 = true :=
  C8_connection_released_once evGetPatients ctxRows
